import Mathlib

/-!
# SpatialDispatcher

A shallow embedding of `USpatialDispatcher` (`Interop/SpatialDispatcher.h`,
`Interop/SpatialDispatcher.cpp`): the op classifier, the built-in router, the
callback registry and the dispatch loop, followed by theorems about them.

Conventions of the embedding.

* Machine integers are `Nat` / `Int` with explicit reduction modulo `2 ^ 32`
  where the source narrows or increments a `uint32`.
  `Worker_EntityId` is the Worker SDK's `int64_t`, `Worker_ComponentId` its
  `uint32_t`, `FCallbackId` is `uint32` (header, line 30).
* `Worker_Op` is the SDK's tagged union; it is an inductive type with one
  constructor per `op_type` enumerator the source names, carrying the union
  member of that kind.  A `switch (Op->op_type)` is a `match` on the
  constructor.
* `TMap` is an association list with unique keys, `TArray` is a `List`.
* Calls to the collaborators (receiver, static component view, worker flags,
  log, actor channels) and invocations of user callbacks are recorded, in
  order, as a list of `Call`.
* `check` / `checkNoEntry` are fatal: the function returns `Except.error`.
-/

namespace SpatialGDK

/-! ## Constants and machine integers -/

/-- The constants of `SpatialConstants.h`, a header of this repository that is
not among the embedded sources, taken as parameters of the embedding: the two
bounds of the extension range and the two sentinel ids. -/
structure SpatialConstants where
  MIN_EXTERNAL_SCHEMA_ID : Nat
  MAX_EXTERNAL_SCHEMA_ID : Nat
  INVALID_ENTITY_ID : Int
  INVALID_COMPONENT_ID : Nat
deriving DecidableEq, Repr

/-- Modelled from the spec: values for the constants of `SpatialConstants.h`,
used where a statement is evaluated on a concrete input.  The range
`1000 - 2000` is the one documented in `SpatialDispatcher.h` (line 36); the
sentinels are taken to be `0`, a value outside that range, as the data model
asks (a component id is exactly one of built-in, extension, invalid). -/
def SpatialConstants.gdk : SpatialConstants :=
  { MIN_EXTERNAL_SCHEMA_ID := 1000
    MAX_EXTERNAL_SCHEMA_ID := 2000
    INVALID_ENTITY_ID := 0
    INVALID_COMPONENT_ID := 0 }

/-- Number of values of a `uint32`. -/
def UINT32_SIZE : Nat := 4294967296

/-- Conversion of a signed 64-bit value to `uint32` (reduction modulo `2 ^ 32`),
as performed by `Worker_ComponentId EntityId = GetEntityId(Op);`. -/
def toUInt32 (x : Int) : Nat := (x % (UINT32_SIZE : Int)).toNat

/-! ## Ops (Worker SDK data, as far as the dispatcher reads it) -/

/-- The `Worker_OpType` enumeration is a C enum: a small integer. -/
abbrev Worker_OpType := Nat

/-! The enumerators, with their values in the Worker SDK (`c_worker.h`).  The
development only relies on their being pairwise different, nonzero and below
the extension range. -/

def WORKER_OP_TYPE_DISCONNECT : Worker_OpType := 1
def WORKER_OP_TYPE_FLAG_UPDATE : Worker_OpType := 2
def WORKER_OP_TYPE_LOG_MESSAGE : Worker_OpType := 3
def WORKER_OP_TYPE_METRICS : Worker_OpType := 4
def WORKER_OP_TYPE_CRITICAL_SECTION : Worker_OpType := 5
def WORKER_OP_TYPE_ADD_ENTITY : Worker_OpType := 6
def WORKER_OP_TYPE_REMOVE_ENTITY : Worker_OpType := 7
def WORKER_OP_TYPE_RESERVE_ENTITY_IDS_RESPONSE : Worker_OpType := 8
def WORKER_OP_TYPE_CREATE_ENTITY_RESPONSE : Worker_OpType := 9
def WORKER_OP_TYPE_DELETE_ENTITY_RESPONSE : Worker_OpType := 10
def WORKER_OP_TYPE_ENTITY_QUERY_RESPONSE : Worker_OpType := 11
def WORKER_OP_TYPE_ADD_COMPONENT : Worker_OpType := 12
def WORKER_OP_TYPE_REMOVE_COMPONENT : Worker_OpType := 13
def WORKER_OP_TYPE_AUTHORITY_CHANGE : Worker_OpType := 14
def WORKER_OP_TYPE_COMPONENT_UPDATE : Worker_OpType := 15
def WORKER_OP_TYPE_COMMAND_REQUEST : Worker_OpType := 16
def WORKER_OP_TYPE_COMMAND_RESPONSE : Worker_OpType := 17

structure Worker_ComponentData where
  component_id : Nat
  schema_type : Nat
deriving DecidableEq, Repr, Inhabited

structure Worker_ComponentUpdate where
  component_id : Nat
  schema_type : Nat
deriving DecidableEq, Repr, Inhabited

structure Worker_CommandRequest where
  component_id : Nat
  schema_type : Nat
deriving DecidableEq, Repr, Inhabited

structure Worker_CommandResponse where
  component_id : Nat
  schema_type : Nat
deriving DecidableEq, Repr, Inhabited

structure Worker_DisconnectOp where
  reason : String
deriving DecidableEq, Repr, Inhabited

structure Worker_FlagUpdateOp where
  name : String
  value : String
deriving DecidableEq, Repr, Inhabited

structure Worker_LogMessageOp where
  level : Nat
  message : String
deriving DecidableEq, Repr, Inhabited

structure Worker_MetricsOp where
  metrics : Nat
deriving DecidableEq, Repr, Inhabited

structure Worker_CriticalSectionOp where
  in_critical_section : Nat
deriving DecidableEq, Repr, Inhabited

structure Worker_AddEntityOp where
  entity_id : Int
deriving DecidableEq, Repr, Inhabited

structure Worker_RemoveEntityOp where
  entity_id : Int
deriving DecidableEq, Repr, Inhabited

structure Worker_ReserveEntityIdsResponseOp where
  request_id : Nat
deriving DecidableEq, Repr, Inhabited

structure Worker_CreateEntityResponseOp where
  request_id : Nat
deriving DecidableEq, Repr, Inhabited

structure Worker_DeleteEntityResponseOp where
  request_id : Nat
deriving DecidableEq, Repr, Inhabited

structure Worker_EntityQueryResponseOp where
  request_id : Nat
deriving DecidableEq, Repr, Inhabited

structure Worker_AddComponentOp where
  entity_id : Int
  data : Worker_ComponentData
deriving DecidableEq, Repr, Inhabited

structure Worker_RemoveComponentOp where
  entity_id : Int
  component_id : Nat
deriving DecidableEq, Repr, Inhabited

structure Worker_AuthorityChangeOp where
  entity_id : Int
  component_id : Nat
  authority : Nat
deriving DecidableEq, Repr, Inhabited

structure Worker_ComponentUpdateOp where
  entity_id : Int
  update : Worker_ComponentUpdate
deriving DecidableEq, Repr, Inhabited

structure Worker_CommandRequestOp where
  request_id : Nat
  entity_id : Int
  request : Worker_CommandRequest
deriving DecidableEq, Repr, Inhabited

structure Worker_CommandResponseOp where
  request_id : Nat
  entity_id : Int
  response : Worker_CommandResponse
deriving DecidableEq, Repr, Inhabited

/-- The tagged union `Worker_Op`.  `UNKNOWN` stands for every `op_type` value
that is none of the enumerators the source names (its `default:` branches). -/
inductive Worker_Op where
  | DISCONNECT (disconnect : Worker_DisconnectOp)
  | FLAG_UPDATE (flag_update : Worker_FlagUpdateOp)
  | LOG_MESSAGE (log_message : Worker_LogMessageOp)
  | METRICS (metrics : Worker_MetricsOp)
  | CRITICAL_SECTION (critical_section : Worker_CriticalSectionOp)
  | ADD_ENTITY (add_entity : Worker_AddEntityOp)
  | REMOVE_ENTITY (remove_entity : Worker_RemoveEntityOp)
  | RESERVE_ENTITY_IDS_RESPONSE (reserve_entity_ids_response : Worker_ReserveEntityIdsResponseOp)
  | CREATE_ENTITY_RESPONSE (create_entity_response : Worker_CreateEntityResponseOp)
  | DELETE_ENTITY_RESPONSE (delete_entity_response : Worker_DeleteEntityResponseOp)
  | ENTITY_QUERY_RESPONSE (entity_query_response : Worker_EntityQueryResponseOp)
  | ADD_COMPONENT (add_component : Worker_AddComponentOp)
  | REMOVE_COMPONENT (remove_component : Worker_RemoveComponentOp)
  | AUTHORITY_CHANGE (authority_change : Worker_AuthorityChangeOp)
  | COMPONENT_UPDATE (component_update : Worker_ComponentUpdateOp)
  | COMMAND_REQUEST (command_request : Worker_CommandRequestOp)
  | COMMAND_RESPONSE (command_response : Worker_CommandResponseOp)
  | UNKNOWN
deriving DecidableEq, Repr, Inhabited

namespace Worker_Op

/-- The field `Op->op_type`; `0`, which is no enumerator, for `UNKNOWN`. -/
def op_type : Worker_Op → Worker_OpType
  | DISCONNECT _ => WORKER_OP_TYPE_DISCONNECT
  | FLAG_UPDATE _ => WORKER_OP_TYPE_FLAG_UPDATE
  | LOG_MESSAGE _ => WORKER_OP_TYPE_LOG_MESSAGE
  | METRICS _ => WORKER_OP_TYPE_METRICS
  | CRITICAL_SECTION _ => WORKER_OP_TYPE_CRITICAL_SECTION
  | ADD_ENTITY _ => WORKER_OP_TYPE_ADD_ENTITY
  | REMOVE_ENTITY _ => WORKER_OP_TYPE_REMOVE_ENTITY
  | RESERVE_ENTITY_IDS_RESPONSE _ => WORKER_OP_TYPE_RESERVE_ENTITY_IDS_RESPONSE
  | CREATE_ENTITY_RESPONSE _ => WORKER_OP_TYPE_CREATE_ENTITY_RESPONSE
  | DELETE_ENTITY_RESPONSE _ => WORKER_OP_TYPE_DELETE_ENTITY_RESPONSE
  | ENTITY_QUERY_RESPONSE _ => WORKER_OP_TYPE_ENTITY_QUERY_RESPONSE
  | ADD_COMPONENT _ => WORKER_OP_TYPE_ADD_COMPONENT
  | REMOVE_COMPONENT _ => WORKER_OP_TYPE_REMOVE_COMPONENT
  | AUTHORITY_CHANGE _ => WORKER_OP_TYPE_AUTHORITY_CHANGE
  | COMPONENT_UPDATE _ => WORKER_OP_TYPE_COMPONENT_UPDATE
  | COMMAND_REQUEST _ => WORKER_OP_TYPE_COMMAND_REQUEST
  | COMMAND_RESPONSE _ => WORKER_OP_TYPE_COMMAND_RESPONSE
  | UNKNOWN => 0

/-- The union member `Op->add_component`.  Read on an op of another kind the
union yields unspecified bytes; the embedding returns the default value. -/
def add_component : Worker_Op → Worker_AddComponentOp
  | ADD_COMPONENT p => p
  | _ => default

/-- The union member `Op->remove_component`. -/
def remove_component : Worker_Op → Worker_RemoveComponentOp
  | REMOVE_COMPONENT p => p
  | _ => default

/-- The union member `Op->authority_change`. -/
def authority_change : Worker_Op → Worker_AuthorityChangeOp
  | AUTHORITY_CHANGE p => p
  | _ => default

/-- The union member `Op->component_update`. -/
def component_update : Worker_Op → Worker_ComponentUpdateOp
  | COMPONENT_UPDATE p => p
  | _ => default

/-- The union member `Op->command_request`. -/
def command_request : Worker_Op → Worker_CommandRequestOp
  | COMMAND_REQUEST p => p
  | _ => default

/-- The union member `Op->command_response`. -/
def command_response : Worker_Op → Worker_CommandResponseOp
  | COMMAND_RESPONSE p => p
  | _ => default

end Worker_Op

/-! ## Op classifier -/

/-- `USpatialDispatcher::GetEntityId` (SpatialDispatcher.cpp, 154-173). -/
def GetEntityId (K : SpatialConstants) (Op : Worker_Op) : Int :=
  match Op with
  | .ADD_COMPONENT add_component => add_component.entity_id
  | .REMOVE_COMPONENT remove_component => remove_component.entity_id
  | .COMPONENT_UPDATE component_update => component_update.entity_id
  | .AUTHORITY_CHANGE authority_change => authority_change.entity_id
  | .COMMAND_REQUEST command_request => command_request.entity_id
  | .COMMAND_RESPONSE command_response => command_response.entity_id
  | _ => K.INVALID_ENTITY_ID

/-- `USpatialDispatcher::GetComponentId` (SpatialDispatcher.cpp, 175-194). -/
def GetComponentId (K : SpatialConstants) (Op : Worker_Op) : Nat :=
  match Op with
  | .ADD_COMPONENT add_component => add_component.data.component_id
  | .REMOVE_COMPONENT remove_component => remove_component.component_id
  | .COMPONENT_UPDATE component_update => component_update.update.component_id
  | .AUTHORITY_CHANGE authority_change => authority_change.component_id
  | .COMMAND_REQUEST command_request => command_request.request.component_id
  | .COMMAND_RESPONSE command_response => command_response.response.component_id
  | _ => K.INVALID_COMPONENT_ID

/-- `USpatialDispatcher::IsExternalSchemaOp` (SpatialDispatcher.cpp, 121-125). -/
def IsExternalSchemaOp (K : SpatialConstants) (Op : Worker_Op) : Bool :=
  let ComponentId := GetComponentId K Op
  decide (K.MIN_EXTERNAL_SCHEMA_ID ≤ ComponentId) && decide (ComponentId ≤ K.MAX_EXTERNAL_SCHEMA_ID)

/-! ## Containers -/

/-- Unreal's `TMap`, as an association list.  `Add` keeps keys unique. -/
structure TMap (K V : Type) where
  Pairs : List (K × V)
deriving DecidableEq, Repr

namespace TMap

variable {K V : Type} [DecidableEq K]

instance : Inhabited (TMap K V) := ⟨⟨[]⟩⟩

/-- `TMap::Find`: the value stored under `Key`, if any. -/
def Find (m : TMap K V) (Key : K) : Option V :=
  (m.Pairs.find? (fun p => decide (p.1 = Key))).map Prod.snd

/-- `TMap::Num`. -/
def Num (m : TMap K V) : Nat := m.Pairs.length

/-- `TMap::Remove`. -/
def Remove (m : TMap K V) (Key : K) : TMap K V :=
  ⟨m.Pairs.filter (fun p => !decide (p.1 = Key))⟩

/-- `TMap::Add`: replaces the value of an existing key, else adds the pair.
It is also the write-back of a mutation made through a pointer or reference
into the map. -/
def Add (m : TMap K V) (Key : K) (Value : V) : TMap K V :=
  match m.Find Key with
  | some _ => ⟨m.Pairs.map (fun p => if p.1 = Key then (Key, Value) else p)⟩
  | none => ⟨m.Pairs ++ [(Key, Value)]⟩

/-- The value `TMap::FindOrAdd` hands out: the stored one, or a
default-constructed one when the key is new. -/
def FindOrAdd [Inhabited V] (m : TMap K V) (Key : K) : V :=
  (m.Find Key).getD default

end TMap

/-- `TArray::IndexOfByPredicate`; `none` is `INDEX_NONE`. -/
def IndexOfByPredicate {A : Type} (Pred : A → Bool) : List A → Option Nat
  | [] => none
  | x :: xs => if Pred x then some 0 else (IndexOfByPredicate Pred xs).map (· + 1)

/-! ## Collaborator calls and callbacks -/

/-- One observable call made by the dispatcher: a hook of the receiver, of the
static component view, of the worker flags, a log line, an ownership check on
an actor channel, or the invocation of a caller-supplied callback (named by a
number) with the payload it receives. -/
inductive Call where
  | Receiver_OnCriticalSection (InCriticalSection : Bool)
  | Receiver_OnAddEntity (Op : Worker_AddEntityOp)
  | Receiver_OnRemoveEntity (Op : Worker_RemoveEntityOp)
  | Receiver_OnAddComponent (Op : Worker_AddComponentOp)
  | Receiver_OnComponentUpdate (Op : Worker_ComponentUpdateOp)
  | Receiver_OnCommandRequest (Op : Worker_CommandRequestOp)
  | Receiver_OnCommandResponse (Op : Worker_CommandResponseOp)
  | Receiver_OnAuthorityChange (Op : Worker_AuthorityChangeOp)
  | Receiver_OnReserveEntityIdsResponse (Op : Worker_ReserveEntityIdsResponseOp)
  | Receiver_OnCreateEntityResponse (Op : Worker_CreateEntityResponseOp)
  | Receiver_OnEntityQueryResponse (Op : Worker_EntityQueryResponseOp)
  | Receiver_OnDisconnect (Op : Worker_DisconnectOp)
  | Receiver_FlushRetryRPCs
  | StaticComponentView_OnAddComponent (Op : Worker_AddComponentOp)
  | StaticComponentView_OnComponentUpdate (Op : Worker_ComponentUpdateOp)
  | StaticComponentView_OnAuthorityChange (Op : Worker_AuthorityChangeOp)
  | ApplyWorkerFlagUpdate (Op : Worker_FlagUpdateOp)
  | UE_LOG (message : String)
  | ProcessOwnershipChange (Channel : Nat)
  | Callback_AddComponent (Callback : Nat) (Op : Worker_AddComponentOp)
  | Callback_RemoveComponent (Callback : Nat) (Op : Worker_RemoveComponentOp)
  | Callback_AuthorityChange (Callback : Nat) (Op : Worker_AuthorityChangeOp)
  | Callback_ComponentUpdate (Callback : Nat) (Op : Worker_ComponentUpdateOp)
  | Callback_CommandRequest (Callback : Nat) (Op : Worker_CommandRequestOp)
  | Callback_CommandResponse (Callback : Nat) (Op : Worker_CommandResponseOp)
deriving DecidableEq, Repr

/-- The `TFunction<void(const Worker_Op*)>` values the registry stores: the
lambdas built by the six `On...` methods (SpatialDispatcher.cpp, 196-241),
each capturing the caller's typed `Callback`, named here by a number. -/
inductive OpCallback where
  | OnAddComponent (Callback : Nat)
  | OnRemoveComponent (Callback : Nat)
  | OnAuthorityChange (Callback : Nat)
  | OnComponentUpdate (Callback : Nat)
  | OnCommandRequest (Callback : Nat)
  | OnCommandResponse (Callback : Nat)
deriving DecidableEq, Repr

/-- Body of the stored lambda: `Callback(Op-><member>)`. -/
def OpCallback.Invoke (Op : Worker_Op) : OpCallback → Call
  | .OnAddComponent Callback => Call.Callback_AddComponent Callback Op.add_component
  | .OnRemoveComponent Callback => Call.Callback_RemoveComponent Callback Op.remove_component
  | .OnAuthorityChange Callback => Call.Callback_AuthorityChange Callback Op.authority_change
  | .OnComponentUpdate Callback => Call.Callback_ComponentUpdate Callback Op.component_update
  | .OnCommandRequest Callback => Call.Callback_CommandRequest Callback Op.command_request
  | .OnCommandResponse Callback => Call.Callback_CommandResponse Callback Op.command_response

/-- The assertion that failed. -/
inductive Fatal where
  | check_ComponentId_not_invalid
  | check_EntityId_not_invalid
  | checkNoEntry
  | check_ComponentId_external
deriving DecidableEq, Repr

/-! ## Callback registry -/

/-- `USpatialDispatcher::UserOpCallbackData` (header, 47-51). -/
structure UserOpCallbackData where
  Id : Nat
  Callback : OpCallback
deriving DecidableEq, Repr

/-- `USpatialDispatcher::CallbackIdData` (header, 53-58). -/
structure CallbackIdData where
  EntityId : Int
  ComponentId : Nat
  OpType : Worker_OpType
deriving DecidableEq, Repr

abbrev OpTypeToCallbacksMap := TMap Worker_OpType (List UserOpCallbackData)

abbrev ComponentIdToOpTypeToCallbacksMap := TMap Nat OpTypeToCallbacksMap

/-- The registry members of `USpatialDispatcher` (header, 79-85).  The
collaborator pointers `NetDriver`, `Receiver`, `StaticComponentView` are
represented by the calls recorded against them. -/
structure USpatialDispatcher where
  NextCallbackId : Nat
  EntityIdToComponentIdToOpTypeToCallbacksMap : TMap Int ComponentIdToOpTypeToCallbacksMap
  CallbackIdToDataMap : TMap Nat CallbackIdData
deriving DecidableEq, Repr

/-- A freshly created dispatcher: the members have no initialiser and `Init`
(SpatialDispatcher.cpp, 14-19) only stores the collaborators, so the counter
is the zero of the object's zero-filled storage and both maps are empty. -/
def USpatialDispatcher.Init : USpatialDispatcher :=
  { NextCallbackId := 0
    EntityIdToComponentIdToOpTypeToCallbacksMap := ⟨[]⟩
    CallbackIdToDataMap := ⟨[]⟩ }

/-- `USpatialDispatcher::AddGenericOpCallback` (SpatialDispatcher.cpp, 243-250).
`CallbackIdData{ ComponentId, OpType }` is an aggregate initialisation of a
three-member struct from two values: they initialise the first two members
`EntityId` and `ComponentId`, and `OpType` is value-initialised to `0`. -/
def AddGenericOpCallback (K : SpatialConstants) (d : USpatialDispatcher) (EntityId : Int)
    (ComponentId : Nat) (OpType : Worker_OpType) (Callback : OpCallback) :
    Except Fatal (Nat × USpatialDispatcher) :=
  if K.MIN_EXTERNAL_SCHEMA_ID ≤ ComponentId ∧ ComponentId ≤ K.MAX_EXTERNAL_SCHEMA_ID then
    let NewCallbackId := d.NextCallbackId
    let ByComponentId := d.EntityIdToComponentIdToOpTypeToCallbacksMap.FindOrAdd EntityId
    let ByOpType := ByComponentId.FindOrAdd ComponentId
    let Callbacks := ByOpType.FindOrAdd OpType
    .ok (NewCallbackId,
      { NextCallbackId := (d.NextCallbackId + 1) % UINT32_SIZE
        EntityIdToComponentIdToOpTypeToCallbacksMap :=
          d.EntityIdToComponentIdToOpTypeToCallbacksMap.Add EntityId
            (ByComponentId.Add ComponentId
              (ByOpType.Add OpType (Callbacks ++ [UserOpCallbackData.mk NewCallbackId Callback])))
        CallbackIdToDataMap :=
          d.CallbackIdToDataMap.Add NewCallbackId
            (CallbackIdData.mk (ComponentId : Int) OpType 0) })
  else
    .error Fatal.check_ComponentId_external

/-- `USpatialDispatcher::OnAddComponent` (SpatialDispatcher.cpp, 196-202). -/
def OnAddComponent (K : SpatialConstants) (d : USpatialDispatcher) (EntityId : Int)
    (ComponentId : Nat) (Callback : Nat) : Except Fatal (Nat × USpatialDispatcher) :=
  AddGenericOpCallback K d EntityId ComponentId WORKER_OP_TYPE_ADD_COMPONENT
    (OpCallback.OnAddComponent Callback)

/-- `USpatialDispatcher::OnRemoveComponent` (SpatialDispatcher.cpp, 204-210). -/
def OnRemoveComponent (K : SpatialConstants) (d : USpatialDispatcher) (EntityId : Int)
    (ComponentId : Nat) (Callback : Nat) : Except Fatal (Nat × USpatialDispatcher) :=
  AddGenericOpCallback K d EntityId ComponentId WORKER_OP_TYPE_REMOVE_COMPONENT
    (OpCallback.OnRemoveComponent Callback)

/-- `USpatialDispatcher::OnAuthorityChange` (SpatialDispatcher.cpp, 212-218). -/
def OnAuthorityChange (K : SpatialConstants) (d : USpatialDispatcher) (EntityId : Int)
    (ComponentId : Nat) (Callback : Nat) : Except Fatal (Nat × USpatialDispatcher) :=
  AddGenericOpCallback K d EntityId ComponentId WORKER_OP_TYPE_AUTHORITY_CHANGE
    (OpCallback.OnAuthorityChange Callback)

/-- `USpatialDispatcher::OnComponentUpdate` (SpatialDispatcher.cpp, 219-225). -/
def OnComponentUpdate (K : SpatialConstants) (d : USpatialDispatcher) (EntityId : Int)
    (ComponentId : Nat) (Callback : Nat) : Except Fatal (Nat × USpatialDispatcher) :=
  AddGenericOpCallback K d EntityId ComponentId WORKER_OP_TYPE_COMPONENT_UPDATE
    (OpCallback.OnComponentUpdate Callback)

/-- `USpatialDispatcher::OnCommandRequest` (SpatialDispatcher.cpp, 227-233). -/
def OnCommandRequest (K : SpatialConstants) (d : USpatialDispatcher) (EntityId : Int)
    (ComponentId : Nat) (Callback : Nat) : Except Fatal (Nat × USpatialDispatcher) :=
  AddGenericOpCallback K d EntityId ComponentId WORKER_OP_TYPE_COMMAND_REQUEST
    (OpCallback.OnCommandRequest Callback)

/-- `USpatialDispatcher::OnCommandResponse` (SpatialDispatcher.cpp, 235-241). -/
def OnCommandResponse (K : SpatialConstants) (d : USpatialDispatcher) (EntityId : Int)
    (ComponentId : Nat) (Callback : Nat) : Except Fatal (Nat × USpatialDispatcher) :=
  AddGenericOpCallback K d EntityId ComponentId WORKER_OP_TYPE_COMMAND_RESPONSE
    (OpCallback.OnCommandResponse Callback)

/-- `USpatialDispatcher::RemoveOpCallback` (SpatialDispatcher.cpp, 252-306).
The two `.Find` / `.Remove` calls the source writes on the pointer
`ComponentIdToOpTypesToCallbacks` are read as `->`.  A mutation through one of
the pointers is written back into the enclosing maps.  No statement of the
function touches `CallbackIdToDataMap`. -/
def RemoveOpCallback (d : USpatialDispatcher) (CallbackId : Nat) : Bool × USpatialDispatcher :=
  match d.CallbackIdToDataMap.Find CallbackId with
  | none => (false, d)
  | some CallbackData =>
    match d.EntityIdToComponentIdToOpTypeToCallbacksMap.Find CallbackData.EntityId with
    | none => (false, d)
    | some ComponentIdToOpTypesToCallbacks =>
      match ComponentIdToOpTypesToCallbacks.Find CallbackData.ComponentId with
      | none => (false, d)
      | some OpTypesToCallbacks =>
        match OpTypesToCallbacks.Find CallbackData.OpType with
        | none => (false, d)
        | some ComponentCallbacks =>
          match IndexOfByPredicate (fun Data => decide (Data.Id = CallbackId)) ComponentCallbacks with
          | none => (false, d)
          | some CallbackIndex =>
            if ComponentCallbacks.length = 1 then
              if OpTypesToCallbacks.Num = 1 then
                if ComponentIdToOpTypesToCallbacks.Num = 1 then
                  (true, { d with
                    EntityIdToComponentIdToOpTypeToCallbacksMap :=
                      d.EntityIdToComponentIdToOpTypeToCallbacksMap.Remove CallbackData.EntityId })
                else
                  (true, { d with
                    EntityIdToComponentIdToOpTypeToCallbacksMap :=
                      d.EntityIdToComponentIdToOpTypeToCallbacksMap.Add CallbackData.EntityId
                        (ComponentIdToOpTypesToCallbacks.Remove CallbackData.ComponentId) })
              else
                (true, { d with
                  EntityIdToComponentIdToOpTypeToCallbacksMap :=
                    d.EntityIdToComponentIdToOpTypeToCallbacksMap.Add CallbackData.EntityId
                      (ComponentIdToOpTypesToCallbacks.Add CallbackData.ComponentId
                        (OpTypesToCallbacks.Remove CallbackData.OpType)) })
            else
              (true, { d with
                EntityIdToComponentIdToOpTypeToCallbacksMap :=
                  d.EntityIdToComponentIdToOpTypeToCallbacksMap.Add CallbackData.EntityId
                    (ComponentIdToOpTypesToCallbacks.Add CallbackData.ComponentId
                      (OpTypesToCallbacks.Add CallbackData.OpType
                        (ComponentCallbacks.eraseIdx CallbackIndex))) })

/-- The callback list stored under a key of the forward index: the list
`RunCallbacks` iterates (empty when a level is missing). -/
def USpatialDispatcher.CallbacksAt (d : USpatialDispatcher) (EntityId : Int) (ComponentId : Nat)
    (OpType : Worker_OpType) : List UserOpCallbackData :=
  match d.EntityIdToComponentIdToOpTypeToCallbacksMap.Find EntityId with
  | none => []
  | some ComponentIdToOpTypesToCallbacks =>
    match ComponentIdToOpTypesToCallbacks.Find ComponentId with
    | none => []
    | some OpTypesToCallbacks => (OpTypesToCallbacks.Find OpType).getD []

/-! ## Extension-op dispatch -/

/-- `USpatialDispatcher::RunCallbacks` (SpatialDispatcher.cpp, 308-332).
The definition in the .cpp names its parameters `(ComponentId, Op)` and reads
the first two keys as `CallbackData->EntityId` and `CallbackData->ComponentId`,
names that are not in scope there; the embedding follows the declaration in
the header (line 68) and the call in `ProcessExternalSchemaOp`: the parameters
are `(EntityId, ComponentId, Op)` and are the keys of the first two lookups.
The `return false;` of a `void` function is a plain return.  The result is the
list of calls made: each stored callback invoked on `Op`, in array order. -/
def RunCallbacks (d : USpatialDispatcher) (EntityId : Int) (ComponentId : Nat)
    (Op : Worker_Op) : List Call :=
  match d.EntityIdToComponentIdToOpTypeToCallbacksMap.Find EntityId with
  | none => []
  | some ComponentIdToOpTypesToCallbacks =>
    match ComponentIdToOpTypesToCallbacks.Find ComponentId with
    | none => []
    | some OpTypesToCallbacks =>
      match OpTypesToCallbacks.Find Op.op_type with
      | none => []
      | some ComponentCallbacks =>
        ComponentCallbacks.map (fun CallbackData => CallbackData.Callback.Invoke Op)

/-- `USpatialDispatcher::ProcessExternalSchemaOp` (SpatialDispatcher.cpp, 127-152).
The local `EntityId` is declared `Worker_ComponentId`, so the entity id is
narrowed to `uint32` and widened again when passed to `RunCallbacks`; the
second `check` compares `ComponentId` (not `EntityId`) with
`INVALID_ENTITY_ID`. -/
def ProcessExternalSchemaOp (K : SpatialConstants) (d : USpatialDispatcher) (Op : Worker_Op) :
    Except Fatal (List Call) :=
  let ComponentId : Nat := GetComponentId K Op
  if ComponentId = K.INVALID_COMPONENT_ID then
    .error Fatal.check_ComponentId_not_invalid
  else
    let EntityId : Nat := toUInt32 (GetEntityId K Op)
    if (ComponentId : Int) = K.INVALID_ENTITY_ID then
      .error Fatal.check_EntityId_not_invalid
    else
      match Op with
      | .AUTHORITY_CHANGE authority_change =>
        .ok (Call.StaticComponentView_OnAuthorityChange authority_change ::
          RunCallbacks d (EntityId : Int) ComponentId Op)
      | .ADD_COMPONENT _ => .ok (RunCallbacks d (EntityId : Int) ComponentId Op)
      | .REMOVE_COMPONENT _ => .ok (RunCallbacks d (EntityId : Int) ComponentId Op)
      | .COMPONENT_UPDATE _ => .ok (RunCallbacks d (EntityId : Int) ComponentId Op)
      | .COMMAND_REQUEST _ => .ok (RunCallbacks d (EntityId : Int) ComponentId Op)
      | .COMMAND_RESPONSE _ => .ok (RunCallbacks d (EntityId : Int) ComponentId Op)
      | _ => .error Fatal.checkNoEntry

/-! ## Dispatch loop -/

/-- The locals of `ProcessOps` while it runs: the calls made so far and the
array `QueuedComponentUpdateOps`. -/
structure OpsPass where
  Calls : List Call
  QueuedComponentUpdateOps : List Worker_Op
deriving DecidableEq, Repr

/-- One iteration of the first loop of `ProcessOps`
(SpatialDispatcher.cpp, 27-104). -/
def ProcessOpsStep (K : SpatialConstants) (d : USpatialDispatcher) (s : OpsPass) (Op : Worker_Op) :
    Except Fatal OpsPass :=
  if IsExternalSchemaOp K Op then
    match ProcessExternalSchemaOp K d Op with
    | .error e => .error e
    | .ok Made => .ok { s with Calls := s.Calls ++ Made }
  else
    match Op with
    | .CRITICAL_SECTION critical_section =>
      .ok { s with Calls := s.Calls ++
        [Call.Receiver_OnCriticalSection (critical_section.in_critical_section != 0)] }
    | .ADD_ENTITY add_entity =>
      .ok { s with Calls := s.Calls ++ [Call.Receiver_OnAddEntity add_entity] }
    | .REMOVE_ENTITY remove_entity =>
      .ok { s with Calls := s.Calls ++ [Call.Receiver_OnRemoveEntity remove_entity] }
    | .ADD_COMPONENT add_component =>
      .ok { s with Calls := s.Calls ++
        [Call.StaticComponentView_OnAddComponent add_component,
         Call.Receiver_OnAddComponent add_component] }
    | .REMOVE_COMPONENT _ => .ok s
    | .COMPONENT_UPDATE component_update =>
      .ok { Calls := s.Calls ++ [Call.StaticComponentView_OnComponentUpdate component_update]
            QueuedComponentUpdateOps := s.QueuedComponentUpdateOps ++ [Op] }
    | .COMMAND_REQUEST command_request =>
      .ok { s with Calls := s.Calls ++ [Call.Receiver_OnCommandRequest command_request] }
    | .COMMAND_RESPONSE command_response =>
      .ok { s with Calls := s.Calls ++ [Call.Receiver_OnCommandResponse command_response] }
    | .AUTHORITY_CHANGE authority_change =>
      .ok { s with Calls := s.Calls ++
        [Call.StaticComponentView_OnAuthorityChange authority_change,
         Call.Receiver_OnAuthorityChange authority_change] }
    | .RESERVE_ENTITY_IDS_RESPONSE reserve_entity_ids_response =>
      .ok { s with Calls := s.Calls ++
        [Call.Receiver_OnReserveEntityIdsResponse reserve_entity_ids_response] }
    | .CREATE_ENTITY_RESPONSE create_entity_response =>
      .ok { s with Calls := s.Calls ++ [Call.Receiver_OnCreateEntityResponse create_entity_response] }
    | .DELETE_ENTITY_RESPONSE _ => .ok s
    | .ENTITY_QUERY_RESPONSE entity_query_response =>
      .ok { s with Calls := s.Calls ++ [Call.Receiver_OnEntityQueryResponse entity_query_response] }
    | .FLAG_UPDATE flag_update =>
      .ok { s with Calls := s.Calls ++ [Call.ApplyWorkerFlagUpdate flag_update] }
    | .LOG_MESSAGE log_message =>
      .ok { s with Calls := s.Calls ++ [Call.UE_LOG log_message.message] }
    | .METRICS _ => .ok s
    | .DISCONNECT disconnect =>
      .ok { s with Calls := s.Calls ++ [Call.Receiver_OnDisconnect disconnect] }
    | .UNKNOWN => .ok s

/-- The first loop of `ProcessOps` (SpatialDispatcher.cpp, 25-105); a fatal
assertion ends it. -/
def ProcessOpsLoop (K : SpatialConstants) (d : USpatialDispatcher) :
    List Worker_Op → OpsPass → Except Fatal OpsPass
  | [], s => .ok s
  | Op :: Rest, s =>
    match ProcessOpsStep K d s Op with
    | .error e => .error e
    | .ok s1 => ProcessOpsLoop K d Rest s1

/-- The second loop of `ProcessOps` (SpatialDispatcher.cpp, 107-110). -/
def ProcessQueuedComponentUpdateOps : List Worker_Op → List Call → List Call
  | [], Calls => Calls
  | Op :: Rest, Calls =>
    ProcessQueuedComponentUpdateOps Rest (Calls ++ [Call.Receiver_OnComponentUpdate Op.component_update])

/-- The last loop of `ProcessOps` (SpatialDispatcher.cpp, 115-118), over the
pairs of `NetDriver->GetEntityToActorChannelMap()`; a channel is named by a
number. -/
def ProcessOwnershipChanges : List (Int × Nat) → List Call → List Call
  | [], Calls => Calls
  | EntityChannelPair :: Rest, Calls =>
    ProcessOwnershipChanges Rest (Calls ++ [Call.ProcessOwnershipChange EntityChannelPair.2])

/-- `USpatialDispatcher::ProcessOps` (SpatialDispatcher.cpp, 21-119): the calls
made for a batch, in order, or the assertion that ended the processing. -/
def ProcessOps (K : SpatialConstants) (d : USpatialDispatcher)
    (EntityToActorChannelMap : TMap Int Nat) (OpList : List Worker_Op) : Except Fatal (List Call) :=
  match ProcessOpsLoop K d OpList (OpsPass.mk [] []) with
  | .error e => .error e
  | .ok s =>
    let Calls1 := ProcessQueuedComponentUpdateOps s.QueuedComponentUpdateOps s.Calls
    let Calls2 := Calls1 ++ [Call.Receiver_FlushRetryRPCs]
    .ok (ProcessOwnershipChanges EntityToActorChannelMap.Pairs Calls2)

/-! ## Sequences of registry calls -/

/-- A call of the public registry interface (header, 38-44). -/
inductive RegistryCall where
  | OnAddComponent (EntityId : Int) (ComponentId : Nat) (Callback : Nat)
  | OnRemoveComponent (EntityId : Int) (ComponentId : Nat) (Callback : Nat)
  | OnAuthorityChange (EntityId : Int) (ComponentId : Nat) (Callback : Nat)
  | OnComponentUpdate (EntityId : Int) (ComponentId : Nat) (Callback : Nat)
  | OnCommandRequest (EntityId : Int) (ComponentId : Nat) (Callback : Nat)
  | OnCommandResponse (EntityId : Int) (ComponentId : Nat) (Callback : Nat)
  | RemoveOpCallback (Id : Nat)
deriving DecidableEq, Repr

/-- What a registry call returns: a callback id, or the boolean of
`RemoveOpCallback`. -/
inductive RegistryReturn where
  | CallbackId (Id : Nat)
  | Removed (Result : Bool)
deriving DecidableEq, Repr

/-- Whether the call is one of the six registrations. -/
def RegistryCall.IsRegistration : RegistryCall → Bool
  | .RemoveOpCallback _ => false
  | _ => true

/-- Runs one registry call. -/
def RunRegistryCall (K : SpatialConstants) (d : USpatialDispatcher) :
    RegistryCall → Except Fatal (RegistryReturn × USpatialDispatcher)
  | .OnAddComponent e c f => (OnAddComponent K d e c f).map (fun r => (.CallbackId r.1, r.2))
  | .OnRemoveComponent e c f => (OnRemoveComponent K d e c f).map (fun r => (.CallbackId r.1, r.2))
  | .OnAuthorityChange e c f => (OnAuthorityChange K d e c f).map (fun r => (.CallbackId r.1, r.2))
  | .OnComponentUpdate e c f => (OnComponentUpdate K d e c f).map (fun r => (.CallbackId r.1, r.2))
  | .OnCommandRequest e c f => (OnCommandRequest K d e c f).map (fun r => (.CallbackId r.1, r.2))
  | .OnCommandResponse e c f => (OnCommandResponse K d e c f).map (fun r => (.CallbackId r.1, r.2))
  | .RemoveOpCallback Id => .ok (.Removed (RemoveOpCallback d Id).1, (RemoveOpCallback d Id).2)

/-- Runs a sequence of registry calls from `d`: the values returned, in order,
and the final registry.  A fatal assertion ends the run. -/
def RunRegistryCalls (K : SpatialConstants) :
    USpatialDispatcher → List RegistryCall → List RegistryReturn × USpatialDispatcher
  | d, [] => ([], d)
  | d, c :: Rest =>
    match RunRegistryCall K d c with
    | .error _ => ([], d)
    | .ok (r, d1) => (r :: (RunRegistryCalls K d1 Rest).1, (RunRegistryCalls K d1 Rest).2)

/-- The callback ids handed out during a run, in order. -/
def CallbackIdsOf : List RegistryReturn → List Nat
  | [] => []
  | .CallbackId Id :: Rest => Id :: CallbackIdsOf Rest
  | .Removed _ :: Rest => CallbackIdsOf Rest

/-! ## Vocabulary of the statements -/

/-- The component id an op carries in its payload, for the six kinds that
carry one. -/
def Worker_Op.PayloadComponentId : Worker_Op → Option Nat
  | .ADD_COMPONENT p => some p.data.component_id
  | .REMOVE_COMPONENT p => some p.component_id
  | .COMPONENT_UPDATE p => some p.update.component_id
  | .AUTHORITY_CHANGE p => some p.component_id
  | .COMMAND_REQUEST p => some p.request.component_id
  | .COMMAND_RESPONSE p => some p.response.component_id
  | _ => none

/-- The op types of the six kinds that carry an entity id and a component
id, the kinds a callback can be registered for. -/
def ComponentOpTypes : List Worker_OpType :=
  [WORKER_OP_TYPE_ADD_COMPONENT, WORKER_OP_TYPE_REMOVE_COMPONENT, WORKER_OP_TYPE_COMPONENT_UPDATE,
   WORKER_OP_TYPE_AUTHORITY_CHANGE, WORKER_OP_TYPE_COMMAND_REQUEST, WORKER_OP_TYPE_COMMAND_RESPONSE]

/-- The routing table of the built-in router, row by row as the specification
gives it: the collaborator calls made at once for a built-in op. -/
def RoutingTable : Worker_Op → List Call
  | .CRITICAL_SECTION p => [Call.Receiver_OnCriticalSection (p.in_critical_section != 0)]
  | .ADD_ENTITY p => [Call.Receiver_OnAddEntity p]
  | .REMOVE_ENTITY p => [Call.Receiver_OnRemoveEntity p]
  | .ADD_COMPONENT p => [Call.StaticComponentView_OnAddComponent p, Call.Receiver_OnAddComponent p]
  | .REMOVE_COMPONENT _ => []
  | .COMPONENT_UPDATE p => [Call.StaticComponentView_OnComponentUpdate p]
  | .COMMAND_REQUEST p => [Call.Receiver_OnCommandRequest p]
  | .COMMAND_RESPONSE p => [Call.Receiver_OnCommandResponse p]
  | .AUTHORITY_CHANGE p => [Call.StaticComponentView_OnAuthorityChange p, Call.Receiver_OnAuthorityChange p]
  | .RESERVE_ENTITY_IDS_RESPONSE p => [Call.Receiver_OnReserveEntityIdsResponse p]
  | .CREATE_ENTITY_RESPONSE p => [Call.Receiver_OnCreateEntityResponse p]
  | .DELETE_ENTITY_RESPONSE _ => []
  | .ENTITY_QUERY_RESPONSE p => [Call.Receiver_OnEntityQueryResponse p]
  | .FLAG_UPDATE p => [Call.ApplyWorkerFlagUpdate p]
  | .LOG_MESSAGE p => [Call.UE_LOG p.message]
  | .METRICS _ => []
  | .DISCONNECT p => [Call.Receiver_OnDisconnect p]
  | .UNKNOWN => []

/-- The payload of a built-in ComponentUpdate op: an op of kind
ComponentUpdate that is not in the extension range. -/
def BuiltInComponentUpdate (K : SpatialConstants) (Op : Worker_Op) : Option Worker_ComponentUpdateOp :=
  match Op with
  | .COMPONENT_UPDATE p => if IsExternalSchemaOp K Op then none else some p
  | _ => none

/-- The static-view calls the dispatch of an extension op makes before it runs
the callbacks. -/
def ExternalStaticViewCalls : Worker_Op → List Call
  | .AUTHORITY_CHANGE p => [Call.StaticComponentView_OnAuthorityChange p]
  | _ => []

/-- The number of registrations in a sequence of registry calls. -/
def Registrations (cs : List RegistryCall) : Nat :=
  (cs.filter RegistryCall.IsRegistration).length

/-- Whether a call is the invocation of a caller-supplied callback. -/
def Call.IsUserCallback : Call → Bool
  | .Callback_AddComponent _ _ => true
  | .Callback_RemoveComponent _ _ => true
  | .Callback_AuthorityChange _ _ => true
  | .Callback_ComponentUpdate _ _ => true
  | .Callback_CommandRequest _ _ => true
  | .Callback_CommandResponse _ _ => true
  | _ => false

/-- Whether a call is one of the two kinds made after the deferred pass:
`FlushRetryRPCs` or `ProcessOwnershipChange`. -/
def Call.IsBatchEnd : Call → Bool
  | .Receiver_FlushRetryRPCs => true
  | .ProcessOwnershipChange _ => true
  | _ => false

/-- The component id a registry call registers for. -/
def RegistryCall.ComponentId : RegistryCall → Option Nat
  | .OnAddComponent _ c _ => some c
  | .OnRemoveComponent _ c _ => some c
  | .OnAuthorityChange _ c _ => some c
  | .OnComponentUpdate _ c _ => some c
  | .OnCommandRequest _ c _ => some c
  | .OnCommandResponse _ c _ => some c
  | .RemoveOpCallback _ => none

/-- Every entry stored in the forward index, over all keys. -/
def USpatialDispatcher.AllCallbacks (d : USpatialDispatcher) : List UserOpCallbackData :=
  (d.EntityIdToComponentIdToOpTypeToCallbacksMap.Pairs.map (fun p =>
    (p.2.Pairs.map (fun q => (q.2.Pairs.map (fun r => r.2)).flatten)).flatten)).flatten

/-- The keys of a map, in storage order. -/
def TMap.Keys {K V : Type} (m : TMap K V) : List K := m.Pairs.map Prod.fst

/-- A map with pairwise different keys whose values all satisfy `P`. -/
def TMap.Inv {K V : Type} (P : V → Prop) (m : TMap K V) : Prop :=
  m.Keys.Nodup ∧ ∀ p ∈ m.Pairs, P p.2

/-- A kind-level map of the forward index that is in order: not empty, keys
pairwise different, no empty callback list. -/
def OpTypeNodeOk (m : OpTypeToCallbacksMap) : Prop :=
  m.Pairs ≠ [] ∧ TMap.Inv (fun l : List UserOpCallbackData => l ≠ []) m

/-- A component-level map of the forward index that is in order: not empty,
keys pairwise different, every kind-level map in order. -/
def ComponentNodeOk (m : ComponentIdToOpTypeToCallbacksMap) : Prop :=
  m.Pairs ≠ [] ∧ TMap.Inv OpTypeNodeOk m

/-- The forward index is in order at its three levels. -/
def USpatialDispatcher.ForwardOk (d : USpatialDispatcher) : Prop :=
  TMap.Inv ComponentNodeOk d.EntityIdToComponentIdToOpTypeToCallbacksMap

/-- The forward index has no empty node: no entity entry with an empty
component map, no component entry with an empty kind map, no kind entry with
an empty callback list. -/
def USpatialDispatcher.NoEmptyNode (d : USpatialDispatcher) : Prop :=
  ∀ p ∈ d.EntityIdToComponentIdToOpTypeToCallbacksMap.Pairs, p.2.Pairs ≠ [] ∧
    ∀ q ∈ p.2.Pairs, q.2.Pairs ≠ [] ∧
      ∀ r ∈ q.2.Pairs, r.2 ≠ []

/-- Whether the key `(EntityId, ComponentId, OpType)` is present in the forward
index: the three lookups succeed. -/
def USpatialDispatcher.KeyPresent (d : USpatialDispatcher) (EntityId : Int) (ComponentId : Nat)
    (OpType : Worker_OpType) : Bool :=
  match d.EntityIdToComponentIdToOpTypeToCallbacksMap.Find EntityId with
  | none => false
  | some ComponentIdToOpTypesToCallbacks =>
    match ComponentIdToOpTypesToCallbacks.Find ComponentId with
    | none => false
    | some OpTypesToCallbacks => (OpTypesToCallbacks.Find OpType).isSome

/-! ## Theorems -/

/-! ### Op classifier -/

/-- C7: for bounds `MIN_EXTERNAL_SCHEMA_ID <= MAX_EXTERNAL_SCHEMA_ID` and an op
of a component-carrying kind with component id `c`, `IsExternalSchemaOp` is
true exactly when `MIN <= c <= MAX`: true at `c = MIN` and at `c = MAX`, false
at `c = MIN - 1` and at `c = MAX + 1`. -/
theorem IsExternalSchemaOp_closed_range (K : SpatialConstants) (Op : Worker_Op) (c : Nat)
    (hK : K.MIN_EXTERNAL_SCHEMA_ID ≤ K.MAX_EXTERNAL_SCHEMA_ID)
    (hc : Op.PayloadComponentId = some c) :
    (IsExternalSchemaOp K Op = true ↔
        K.MIN_EXTERNAL_SCHEMA_ID ≤ c ∧ c ≤ K.MAX_EXTERNAL_SCHEMA_ID) ∧
      (c = K.MIN_EXTERNAL_SCHEMA_ID → IsExternalSchemaOp K Op = true) ∧
      (c = K.MAX_EXTERNAL_SCHEMA_ID → IsExternalSchemaOp K Op = true) ∧
      (c + 1 = K.MIN_EXTERNAL_SCHEMA_ID → IsExternalSchemaOp K Op = false) ∧
      (c = K.MAX_EXTERNAL_SCHEMA_ID + 1 → IsExternalSchemaOp K Op = false) := by
  have hid : GetComponentId K Op = c := by
    cases Op <;> simp_all [Worker_Op.PayloadComponentId, GetComponentId]
  have key : IsExternalSchemaOp K Op = true ↔
      K.MIN_EXTERNAL_SCHEMA_ID ≤ c ∧ c ≤ K.MAX_EXTERNAL_SCHEMA_ID := by
    simp [IsExternalSchemaOp, hid]
  refine ⟨key, ?_, ?_, ?_, ?_⟩
  · intro h
    exact key.mpr ⟨by omega, by omega⟩
  · intro h
    exact key.mpr ⟨by omega, by omega⟩
  · intro h
    have : ¬ (IsExternalSchemaOp K Op = true) := fun hx => by
      have := key.mp hx
      omega
    simpa using this
  · intro h
    have : ¬ (IsExternalSchemaOp K Op = true) := fun hx => by
      have := key.mp hx
      omega
    simpa using this

/-- Witness of C7: an AddComponent op for component 1000, with the bounds of
the header. -/
theorem IsExternalSchemaOp_closed_range_witness :
    SpatialConstants.gdk.MIN_EXTERNAL_SCHEMA_ID ≤ SpatialConstants.gdk.MAX_EXTERNAL_SCHEMA_ID ∧
    (Worker_Op.ADD_COMPONENT ⟨1, ⟨1000, 0⟩⟩).PayloadComponentId = some 1000 ∧
    (IsExternalSchemaOp SpatialConstants.gdk (.ADD_COMPONENT ⟨1, ⟨1000, 0⟩⟩) = true ↔
        SpatialConstants.gdk.MIN_EXTERNAL_SCHEMA_ID ≤ 1000 ∧
          1000 ≤ SpatialConstants.gdk.MAX_EXTERNAL_SCHEMA_ID) ∧
      (1000 = SpatialConstants.gdk.MIN_EXTERNAL_SCHEMA_ID →
        IsExternalSchemaOp SpatialConstants.gdk (.ADD_COMPONENT ⟨1, ⟨1000, 0⟩⟩) = true) ∧
      (1000 = SpatialConstants.gdk.MAX_EXTERNAL_SCHEMA_ID →
        IsExternalSchemaOp SpatialConstants.gdk (.ADD_COMPONENT ⟨1, ⟨1000, 0⟩⟩) = true) ∧
      (1000 + 1 = SpatialConstants.gdk.MIN_EXTERNAL_SCHEMA_ID →
        IsExternalSchemaOp SpatialConstants.gdk (.ADD_COMPONENT ⟨1, ⟨1000, 0⟩⟩) = false) ∧
      (1000 = SpatialConstants.gdk.MAX_EXTERNAL_SCHEMA_ID + 1 →
        IsExternalSchemaOp SpatialConstants.gdk (.ADD_COMPONENT ⟨1, ⟨1000, 0⟩⟩) = false) :=
  ⟨by decide, rfl,
    IsExternalSchemaOp_closed_range SpatialConstants.gdk (.ADD_COMPONENT ⟨1, ⟨1000, 0⟩⟩) 1000
      (by decide) rfl⟩

/-- C8: for an op of one of the six component kinds `GetEntityId` and
`GetComponentId` return the `entity_id` and `component_id` fields of that
kind's payload; for an op of any other kind they return `INVALID_ENTITY_ID`
and `INVALID_COMPONENT_ID`. -/
theorem GetEntityId_GetComponentId_by_kind (K : SpatialConstants) :
    (∀ p, GetEntityId K (.ADD_COMPONENT p) = p.entity_id ∧
        GetComponentId K (.ADD_COMPONENT p) = p.data.component_id) ∧
      (∀ p, GetEntityId K (.REMOVE_COMPONENT p) = p.entity_id ∧
        GetComponentId K (.REMOVE_COMPONENT p) = p.component_id) ∧
      (∀ p, GetEntityId K (.COMPONENT_UPDATE p) = p.entity_id ∧
        GetComponentId K (.COMPONENT_UPDATE p) = p.update.component_id) ∧
      (∀ p, GetEntityId K (.AUTHORITY_CHANGE p) = p.entity_id ∧
        GetComponentId K (.AUTHORITY_CHANGE p) = p.component_id) ∧
      (∀ p, GetEntityId K (.COMMAND_REQUEST p) = p.entity_id ∧
        GetComponentId K (.COMMAND_REQUEST p) = p.request.component_id) ∧
      (∀ p, GetEntityId K (.COMMAND_RESPONSE p) = p.entity_id ∧
        GetComponentId K (.COMMAND_RESPONSE p) = p.response.component_id) ∧
      (∀ Op : Worker_Op, Op.op_type ∉ ComponentOpTypes →
        GetEntityId K Op = K.INVALID_ENTITY_ID ∧ GetComponentId K Op = K.INVALID_COMPONENT_ID) := by
  refine ⟨fun _ => ⟨rfl, rfl⟩, fun _ => ⟨rfl, rfl⟩, fun _ => ⟨rfl, rfl⟩, fun _ => ⟨rfl, rfl⟩,
    fun _ => ⟨rfl, rfl⟩, fun _ => ⟨rfl, rfl⟩, ?_⟩
  intro Op hOp
  cases Op <;> first
    | exact ⟨rfl, rfl⟩
    | exact absurd (by simp [Worker_Op.op_type, ComponentOpTypes]) hOp

/-- Witness of C8: a LogMessage op yields both sentinels. -/
theorem GetEntityId_GetComponentId_by_kind_witness :
    (Worker_Op.LOG_MESSAGE ⟨0, "m"⟩).op_type ∉ ComponentOpTypes ∧
      GetEntityId SpatialConstants.gdk (.LOG_MESSAGE ⟨0, "m"⟩) =
        SpatialConstants.gdk.INVALID_ENTITY_ID ∧
      GetComponentId SpatialConstants.gdk (.LOG_MESSAGE ⟨0, "m"⟩) =
        SpatialConstants.gdk.INVALID_COMPONENT_ID :=
  ⟨by decide,
    (GetEntityId_GetComponentId_by_kind SpatialConstants.gdk).2.2.2.2.2.2
      (.LOG_MESSAGE ⟨0, "m"⟩) (by decide)⟩

/-! ### Built-in router -/

/-- C10: for an op that is not in the extension range, the iteration of
`ProcessOps` that routes it succeeds and makes exactly the calls of the routing
table, in that order, after the calls already made. -/
theorem ProcessOpsStep_routing_table (K : SpatialConstants) (d : USpatialDispatcher)
    (s : OpsPass) (Op : Worker_Op) (hOp : IsExternalSchemaOp K Op = false) :
    ∃ s1, ProcessOpsStep K d s Op = .ok s1 ∧ s1.Calls = s.Calls ++ RoutingTable Op := by
  unfold ProcessOpsStep
  rw [hOp]
  cases Op <;> simp [RoutingTable]

/-- Witness of C10: a built-in AddComponent op (component 54) reaches the static
view and then the receiver. -/
theorem ProcessOpsStep_routing_table_witness :
    IsExternalSchemaOp SpatialConstants.gdk (.ADD_COMPONENT ⟨1, ⟨54, 0⟩⟩) = false ∧
      ∃ s1, ProcessOpsStep SpatialConstants.gdk USpatialDispatcher.Init (OpsPass.mk [] [])
          (.ADD_COMPONENT ⟨1, ⟨54, 0⟩⟩) = .ok s1 ∧
        s1.Calls = [] ++ RoutingTable (.ADD_COMPONENT ⟨1, ⟨54, 0⟩⟩) :=
  ⟨by decide, ProcessOpsStep_routing_table SpatialConstants.gdk USpatialDispatcher.Init
    (OpsPass.mk [] []) (.ADD_COMPONENT ⟨1, ⟨54, 0⟩⟩) (by decide)⟩

/-! ### Dispatch loop -/

/-- Invoking a stored callback is never a receiver `OnComponentUpdate`. -/
theorem Invoke_ne_Receiver_OnComponentUpdate (Op : Worker_Op) (cb : OpCallback)
    (p : Worker_ComponentUpdateOp) : cb.Invoke Op ≠ Call.Receiver_OnComponentUpdate p := by
  cases cb <;> simp [OpCallback.Invoke]

/-- `RunCallbacks` makes no receiver `OnComponentUpdate` call. -/
theorem RunCallbacks_no_Receiver_OnComponentUpdate (d : USpatialDispatcher) (EntityId : Int)
    (ComponentId : Nat) (Op : Worker_Op) (p : Worker_ComponentUpdateOp) :
    Call.Receiver_OnComponentUpdate p ∉ RunCallbacks d EntityId ComponentId Op := by
  unfold RunCallbacks
  split
  · simp
  · split
    · simp
    · split
      · simp
      · intro h
        rcases List.mem_map.mp h with ⟨x, _, hx⟩
        exact Invoke_ne_Receiver_OnComponentUpdate Op x.Callback p hx

/-- With both sentinels outside the extension range, an op outside the six
component kinds is not classified as extension. -/
theorem IsExternalSchemaOp_kind (K : SpatialConstants) (Op : Worker_Op)
    (hc : ¬ (K.MIN_EXTERNAL_SCHEMA_ID ≤ K.INVALID_COMPONENT_ID ∧
      K.INVALID_COMPONENT_ID ≤ K.MAX_EXTERNAL_SCHEMA_ID))
    (hOp : IsExternalSchemaOp K Op = true) : Op.PayloadComponentId = some (GetComponentId K Op) := by
  have h : K.MIN_EXTERNAL_SCHEMA_ID ≤ GetComponentId K Op ∧
      GetComponentId K Op ≤ K.MAX_EXTERNAL_SCHEMA_ID := by
    simpa [IsExternalSchemaOp] using hOp
  cases Op <;> first
    | rfl
    | exact absurd h hc

/-- With both sentinels outside the extension range, the dispatch of an
extension op passes its assertions; it makes no receiver `OnComponentUpdate`
call. -/
theorem ProcessExternalSchemaOp_ok (K : SpatialConstants) (d : USpatialDispatcher) (Op : Worker_Op)
    (hc : ¬ (K.MIN_EXTERNAL_SCHEMA_ID ≤ K.INVALID_COMPONENT_ID ∧
      K.INVALID_COMPONENT_ID ≤ K.MAX_EXTERNAL_SCHEMA_ID))
    (he : ¬ ((K.MIN_EXTERNAL_SCHEMA_ID : Int) ≤ K.INVALID_ENTITY_ID ∧
      K.INVALID_ENTITY_ID ≤ (K.MAX_EXTERNAL_SCHEMA_ID : Int)))
    (hOp : IsExternalSchemaOp K Op = true) :
    ∃ Made, ProcessExternalSchemaOp K d Op = .ok Made ∧
      ∀ p, Call.Receiver_OnComponentUpdate p ∉ Made := by
  have hkind := IsExternalSchemaOp_kind K Op hc hOp
  have h : K.MIN_EXTERNAL_SCHEMA_ID ≤ GetComponentId K Op ∧
      GetComponentId K Op ≤ K.MAX_EXTERNAL_SCHEMA_ID := by
    simpa [IsExternalSchemaOp] using hOp
  have h1 : GetComponentId K Op ≠ K.INVALID_COMPONENT_ID := fun hx => hc (hx ▸ h)
  have h2 : (GetComponentId K Op : Int) ≠ K.INVALID_ENTITY_ID := by
    intro hx
    apply he
    rw [← hx]
    exact ⟨by exact_mod_cast h.1, by exact_mod_cast h.2⟩
  unfold ProcessExternalSchemaOp
  simp only [h1, h2, if_false]
  cases Op <;> simp [Worker_Op.PayloadComponentId] at hkind ⊢ <;>
    exact RunCallbacks_no_Receiver_OnComponentUpdate _ _ _ _

/-- With both sentinels outside the extension range, an iteration of the first
loop succeeds: it appends calls, none of them a receiver `OnComponentUpdate`,
and queues the op exactly when it is a built-in ComponentUpdate. -/
theorem ProcessOpsStep_ok (K : SpatialConstants) (d : USpatialDispatcher) (s : OpsPass)
    (Op : Worker_Op)
    (hc : ¬ (K.MIN_EXTERNAL_SCHEMA_ID ≤ K.INVALID_COMPONENT_ID ∧
      K.INVALID_COMPONENT_ID ≤ K.MAX_EXTERNAL_SCHEMA_ID))
    (he : ¬ ((K.MIN_EXTERNAL_SCHEMA_ID : Int) ≤ K.INVALID_ENTITY_ID ∧
      K.INVALID_ENTITY_ID ≤ (K.MAX_EXTERNAL_SCHEMA_ID : Int))) :
    ∃ Made, ProcessOpsStep K d s Op = .ok (OpsPass.mk (s.Calls ++ Made)
        (s.QueuedComponentUpdateOps ++
          [Op].filter (fun o => (BuiltInComponentUpdate K o).isSome))) ∧
      (∀ p, Call.Receiver_OnComponentUpdate p ∉ Made) ∧
      (∀ p, Op = .ADD_COMPONENT p → IsExternalSchemaOp K Op = false →
        Call.StaticComponentView_OnAddComponent p ∈ Made) := by
  cases hx : IsExternalSchemaOp K Op
  · refine ⟨RoutingTable Op, ?_, ?_, ?_⟩
    · unfold ProcessOpsStep
      rw [hx]
      cases Op <;> simp [RoutingTable, BuiltInComponentUpdate, hx]
    · intro p
      cases Op <;> simp [RoutingTable]
    · intro p hp _
      subst hp
      simp [RoutingTable]
  · obtain ⟨Made, hMade, hno⟩ := ProcessExternalSchemaOp_ok K d Op hc he hx
    refine ⟨Made, ?_, hno, ?_⟩
    · unfold ProcessOpsStep
      rw [hx, hMade]
      cases Op <;> simp [BuiltInComponentUpdate, hx]
    · intro p _ hf
      simp at hf

/-- The first loop, from any intermediate state: it succeeds, appends calls
that contain no receiver `OnComponentUpdate`, and queues the built-in
ComponentUpdate ops in arrival order. -/
theorem ProcessOpsLoop_ok (K : SpatialConstants) (d : USpatialDispatcher)
    (hc : ¬ (K.MIN_EXTERNAL_SCHEMA_ID ≤ K.INVALID_COMPONENT_ID ∧
      K.INVALID_COMPONENT_ID ≤ K.MAX_EXTERNAL_SCHEMA_ID))
    (he : ¬ ((K.MIN_EXTERNAL_SCHEMA_ID : Int) ≤ K.INVALID_ENTITY_ID ∧
      K.INVALID_ENTITY_ID ≤ (K.MAX_EXTERNAL_SCHEMA_ID : Int)))
    (OpList : List Worker_Op) (s : OpsPass) :
    ∃ Made, ProcessOpsLoop K d OpList s = .ok (OpsPass.mk (s.Calls ++ Made)
        (s.QueuedComponentUpdateOps ++
          OpList.filter (fun o => (BuiltInComponentUpdate K o).isSome))) ∧
      (∀ p, Call.Receiver_OnComponentUpdate p ∉ Made) ∧
      (∀ p, Worker_Op.ADD_COMPONENT p ∈ OpList →
        IsExternalSchemaOp K (.ADD_COMPONENT p) = false →
        Call.StaticComponentView_OnAddComponent p ∈ Made) := by
  induction OpList generalizing s with
  | nil => exact ⟨[], by simp [ProcessOpsLoop], by simp, by simp⟩
  | cons Op Rest ih =>
    obtain ⟨Made1, h1, hno1, hadd1⟩ := ProcessOpsStep_ok K d s Op hc he
    obtain ⟨Made2, h2, hno2, hadd2⟩ := ih
      (OpsPass.mk (s.Calls ++ Made1) (s.QueuedComponentUpdateOps ++
        [Op].filter (fun o => (BuiltInComponentUpdate K o).isSome)))
    refine ⟨Made1 ++ Made2, ?_, ?_, ?_⟩
    · simp only [ProcessOpsLoop, h1, h2]
      simp [List.filter_cons]
      split <;> simp
    · intro p hp
      rcases List.mem_append.mp hp with h | h
      · exact hno1 p h
      · exact hno2 p h
    · intro p hp hx
      rcases List.mem_cons.mp hp with h | h
      · exact List.mem_append_left _ (hadd1 p h.symm (h ▸ hx))
      · exact List.mem_append_right _ (hadd2 p h hx)

/-- The second loop appends one receiver `OnComponentUpdate` per queued op. -/
theorem ProcessQueuedComponentUpdateOps_eq (Queue : List Worker_Op) (Calls : List Call) :
    ProcessQueuedComponentUpdateOps Queue Calls =
      Calls ++ Queue.map (fun Op => Call.Receiver_OnComponentUpdate Op.component_update) := by
  induction Queue generalizing Calls with
  | nil => simp [ProcessQueuedComponentUpdateOps]
  | cons Op Rest ih => simp [ProcessQueuedComponentUpdateOps, ih]

/-- The last loop appends one `ProcessOwnershipChange` per channel. -/
theorem ProcessOwnershipChanges_eq (Channels : List (Int × Nat)) (Calls : List Call) :
    ProcessOwnershipChanges Channels Calls =
      Calls ++ Channels.map (fun p => Call.ProcessOwnershipChange p.2) := by
  induction Channels generalizing Calls with
  | nil => simp [ProcessOwnershipChanges]
  | cons c Rest ih => simp [ProcessOwnershipChanges, ih]

/-- The queued ops, read through `component_update`, are the payloads of the
built-in ComponentUpdate ops. -/
theorem queued_component_updates (K : SpatialConstants) (OpList : List Worker_Op) :
    (OpList.filter (fun o => (BuiltInComponentUpdate K o).isSome)).map
        (fun Op => Call.Receiver_OnComponentUpdate Op.component_update) =
      (OpList.filterMap (BuiltInComponentUpdate K)).map Call.Receiver_OnComponentUpdate := by
  induction OpList with
  | nil => rfl
  | cons Op Rest ih =>
    cases h : BuiltInComponentUpdate K Op with
    | none => simp [List.filter_cons, List.filterMap_cons, h, ih]
    | some p =>
      have hp : Op.component_update = p := by
        cases Op <;> simp [BuiltInComponentUpdate] at h
        simp [Worker_Op.component_update, h.2]
      simp [List.filter_cons, List.filterMap_cons, h, hp, ih]

/-- C9: with both sentinels outside the extension range, `ProcessOps` completes
on every batch and its trace is: the calls made while routing the ops (the
calls of the first loop, none of which is a receiver `OnComponentUpdate`, and
which hold the static-view `OnAddComponent` of every built-in AddComponent op
of the batch), then one receiver `OnComponentUpdate` for each built-in
ComponentUpdate op of the batch, in arrival order, then `FlushRetryRPCs` and
the ownership checks. -/
theorem ProcessOps_deferred_component_updates (K : SpatialConstants) (d : USpatialDispatcher)
    (EntityToActorChannelMap : TMap Int Nat) (OpList : List Worker_Op)
    (hc : ¬ (K.MIN_EXTERNAL_SCHEMA_ID ≤ K.INVALID_COMPONENT_ID ∧
      K.INVALID_COMPONENT_ID ≤ K.MAX_EXTERNAL_SCHEMA_ID))
    (he : ¬ ((K.MIN_EXTERNAL_SCHEMA_ID : Int) ≤ K.INVALID_ENTITY_ID ∧
      K.INVALID_ENTITY_ID ≤ (K.MAX_EXTERNAL_SCHEMA_ID : Int))) :
    ∃ Routing Queue,
      ProcessOpsLoop K d OpList (OpsPass.mk [] []) = .ok (OpsPass.mk Routing Queue) ∧
      ProcessOps K d EntityToActorChannelMap OpList = .ok (Routing ++
        (OpList.filterMap (BuiltInComponentUpdate K)).map Call.Receiver_OnComponentUpdate ++
        Call.Receiver_FlushRetryRPCs ::
          EntityToActorChannelMap.Pairs.map (fun p => Call.ProcessOwnershipChange p.2)) ∧
      (∀ p, Call.Receiver_OnComponentUpdate p ∉ Routing) ∧
      (∀ p, Worker_Op.ADD_COMPONENT p ∈ OpList →
        IsExternalSchemaOp K (.ADD_COMPONENT p) = false →
        Call.StaticComponentView_OnAddComponent p ∈ Routing) := by
  obtain ⟨Made, h, hno, hadd⟩ := ProcessOpsLoop_ok K d hc he OpList (OpsPass.mk [] [])
  simp only [List.nil_append] at h
  refine ⟨Made, _, h, ?_, hno, hadd⟩
  simp only [ProcessOps, h, ProcessQueuedComponentUpdateOps_eq, ProcessOwnershipChanges_eq,
    queued_component_updates]
  simp

/-- Witness of C9: a batch holding a built-in AddComponent op followed by a
built-in ComponentUpdate op for the same entity and component. -/
theorem ProcessOps_deferred_component_updates_witness :
    (¬ (SpatialConstants.gdk.MIN_EXTERNAL_SCHEMA_ID ≤ SpatialConstants.gdk.INVALID_COMPONENT_ID ∧
      SpatialConstants.gdk.INVALID_COMPONENT_ID ≤ SpatialConstants.gdk.MAX_EXTERNAL_SCHEMA_ID)) ∧
    (¬ ((SpatialConstants.gdk.MIN_EXTERNAL_SCHEMA_ID : Int) ≤ SpatialConstants.gdk.INVALID_ENTITY_ID ∧
      SpatialConstants.gdk.INVALID_ENTITY_ID ≤ (SpatialConstants.gdk.MAX_EXTERNAL_SCHEMA_ID : Int))) ∧
    ∃ Routing Queue,
      ProcessOpsLoop SpatialConstants.gdk USpatialDispatcher.Init
          [.ADD_COMPONENT ⟨1, ⟨54, 0⟩⟩, .COMPONENT_UPDATE ⟨1, ⟨54, 9⟩⟩] (OpsPass.mk [] []) =
        .ok (OpsPass.mk Routing Queue) ∧
      ProcessOps SpatialConstants.gdk USpatialDispatcher.Init ⟨[(1, 3)]⟩
          [.ADD_COMPONENT ⟨1, ⟨54, 0⟩⟩, .COMPONENT_UPDATE ⟨1, ⟨54, 9⟩⟩] = .ok (Routing ++
        ([Worker_Op.ADD_COMPONENT ⟨1, ⟨54, 0⟩⟩, Worker_Op.COMPONENT_UPDATE ⟨1, ⟨54, 9⟩⟩].filterMap
          (BuiltInComponentUpdate SpatialConstants.gdk)).map Call.Receiver_OnComponentUpdate ++
        Call.Receiver_FlushRetryRPCs ::
          (TMap.mk [((1 : Int), 3)]).Pairs.map (fun p => Call.ProcessOwnershipChange p.2)) ∧
      (∀ p, Call.Receiver_OnComponentUpdate p ∉ Routing) ∧
      (∀ p, Worker_Op.ADD_COMPONENT p ∈
          [Worker_Op.ADD_COMPONENT ⟨1, ⟨54, 0⟩⟩, Worker_Op.COMPONENT_UPDATE ⟨1, ⟨54, 9⟩⟩] →
        IsExternalSchemaOp SpatialConstants.gdk (.ADD_COMPONENT p) = false →
        Call.StaticComponentView_OnAddComponent p ∈ Routing) :=
  ⟨by decide, by decide,
    ProcessOps_deferred_component_updates SpatialConstants.gdk USpatialDispatcher.Init ⟨[(1, 3)]⟩
      [.ADD_COMPONENT ⟨1, ⟨54, 0⟩⟩, .COMPONENT_UPDATE ⟨1, ⟨54, 9⟩⟩] (by decide) (by decide)⟩

/-! ### Callback ids -/

/-- `RemoveOpCallback` leaves the counter `NextCallbackId` alone. -/
theorem RemoveOpCallback_NextCallbackId (d : USpatialDispatcher) (Id : Nat) :
    (RemoveOpCallback d Id).2.NextCallbackId = d.NextCallbackId := by
  unfold RemoveOpCallback
  repeat' split
  all_goals rfl

/-- A registration that passes its `check` returns the counter and increments
it modulo `2 ^ 32`. -/
theorem AddGenericOpCallback_ok (K : SpatialConstants) (d : USpatialDispatcher) (e : Int) (c : Nat)
    (t : Worker_OpType) (cb : OpCallback) (Id : Nat) (d1 : USpatialDispatcher)
    (h : AddGenericOpCallback K d e c t cb = .ok (Id, d1)) :
    Id = d.NextCallbackId ∧ d1.NextCallbackId = (d.NextCallbackId + 1) % UINT32_SIZE := by
  unfold AddGenericOpCallback at h
  split at h
  · simp only [Except.ok.injEq, Prod.mk.injEq] at h
    obtain ⟨h1, h2⟩ := h
    subst h2
    exact ⟨h1.symm, rfl⟩
  · simp at h

/-- A registry call that returns is a registration, which returns the counter
and increments it, or a `RemoveOpCallback`, which leaves it alone. -/
theorem RunRegistryCall_ok (K : SpatialConstants) (d : USpatialDispatcher) (c : RegistryCall)
    (r : RegistryReturn) (d1 : USpatialDispatcher) (h : RunRegistryCall K d c = .ok (r, d1)) :
    (c.IsRegistration = true ∧ r = .CallbackId d.NextCallbackId ∧
        d1.NextCallbackId = (d.NextCallbackId + 1) % UINT32_SIZE) ∨
      (c.IsRegistration = false ∧ CallbackIdsOf [r] = [] ∧ d1.NextCallbackId = d.NextCallbackId) := by
  cases c with
  | RemoveOpCallback Id =>
    right
    simp only [RunRegistryCall, Except.ok.injEq, Prod.mk.injEq] at h
    obtain ⟨h1, h2⟩ := h
    subst h1 h2
    exact ⟨rfl, rfl, RemoveOpCallback_NextCallbackId d Id⟩
  | _ =>
    left
    simp only [RunRegistryCall, OnAddComponent, OnRemoveComponent, OnAuthorityChange,
      OnComponentUpdate, OnCommandRequest, OnCommandResponse] at h
    cases hx : AddGenericOpCallback K d _ _ _ _ with
    | error e => rw [hx] at h; simp [Except.map] at h
    | ok v =>
      rw [hx] at h
      simp only [Except.map, Except.ok.injEq, Prod.mk.injEq] at h
      obtain ⟨h1, h2⟩ := h
      obtain ⟨h3, h4⟩ := AddGenericOpCallback_ok K d _ _ _ _ v.1 v.2 hx
      subst h1 h2
      exact ⟨rfl, by rw [h3], h4⟩

/-- A run hands out at most one callback id per registration. -/
theorem CallbackIdsOf_length_le (K : SpatialConstants) (cs : List RegistryCall)
    (d : USpatialDispatcher) :
    (CallbackIdsOf (RunRegistryCalls K d cs).1).length ≤ Registrations cs := by
  induction cs generalizing d with
  | nil => simp [RunRegistryCalls, CallbackIdsOf]
  | cons c Rest ih =>
    simp only [RunRegistryCalls]
    cases hx : RunRegistryCall K d c with
    | error e => simp [CallbackIdsOf]
    | ok v =>
      obtain ⟨r, d1⟩ := v
      have ih1 := ih d1
      rcases RunRegistryCall_ok K d c r d1 hx with ⟨h1, h2, _⟩ | ⟨h1, h2, _⟩
      · subst h2
        simp only [CallbackIdsOf, List.length_cons, Registrations, List.filter_cons, h1, if_true]
        simp only [Registrations] at ih1
        omega
      · cases r with
        | CallbackId Id => simp [CallbackIdsOf] at h2
        | Removed b =>
          simp only [CallbackIdsOf, Registrations, List.filter_cons, h1]
          simpa [Registrations] using ih1

/-- The callback ids handed out during a run are the successive values of the
counter: the `i`-th one is `(NextCallbackId + i) % 2 ^ 32`. -/
theorem CallbackIdsOf_eq (K : SpatialConstants) (cs : List RegistryCall)
    (d : USpatialDispatcher) (hd : d.NextCallbackId < UINT32_SIZE) :
    CallbackIdsOf (RunRegistryCalls K d cs).1 =
      (List.range (CallbackIdsOf (RunRegistryCalls K d cs).1).length).map
        (fun i => (d.NextCallbackId + i) % UINT32_SIZE) := by
  induction cs generalizing d with
  | nil => simp [RunRegistryCalls, CallbackIdsOf]
  | cons c Rest ih =>
    simp only [RunRegistryCalls]
    cases hx : RunRegistryCall K d c with
    | error e => simp [CallbackIdsOf]
    | ok v =>
      obtain ⟨r, d1⟩ := v
      rcases RunRegistryCall_ok K d c r d1 hx with ⟨_, h2, h3⟩ | ⟨_, h2, h3⟩
      · subst h2
        have hd1 : d1.NextCallbackId < UINT32_SIZE := by
          rw [h3]; exact Nat.mod_lt _ (by decide)
        have ih1 := ih d1 hd1
        simp only [CallbackIdsOf, List.length_cons, List.range_succ_eq_map, List.map_cons,
          List.map_map]
        rw [List.cons.injEq]
        refine ⟨by simp [Nat.mod_eq_of_lt hd], ?_⟩
        rw [ih1]
        simp only [List.length_map, List.length_range]
        apply List.map_congr_left
        intro i _
        simp only [Function.comp, h3]
        rw [Nat.mod_add_mod]
        congr 1
        omega
      · cases r with
        | CallbackId Id => simp [CallbackIdsOf] at h2
        | Removed b =>
          have ih1 := ih d1 (h3 ▸ hd)
          simp only [CallbackIdsOf]
          rw [h3] at ih1
          exact ih1

/-- Registrations for component 1000 all pass the `check`. -/
theorem CallbackIdsOf_replicate_length (n : Nat) (d : USpatialDispatcher) :
    (CallbackIdsOf (RunRegistryCalls SpatialConstants.gdk d
      (List.replicate n (.OnAddComponent 1 1000 7))).1).length = n := by
  induction n generalizing d with
  | zero => simp [RunRegistryCalls, CallbackIdsOf]
  | succ n ih =>
    simp only [List.replicate_succ, RunRegistryCalls]
    cases hx : RunRegistryCall SpatialConstants.gdk d (.OnAddComponent 1 1000 7) with
    | error e =>
      simp [RunRegistryCall, OnAddComponent, AddGenericOpCallback, SpatialConstants.gdk,
        Except.map] at hx
    | ok v =>
      obtain ⟨r, d1⟩ := v
      rcases RunRegistryCall_ok _ d _ r d1 hx with ⟨_, h2, _⟩ | ⟨h1, _, _⟩
      · subst h2
        simp [CallbackIdsOf, ih d1]
      · simp [RegistryCall.IsRegistration] at h1

/-- C6 (amended): for every sequence of register and deregister calls on a
freshly initialised registry that holds at most `2 ^ 32` registrations, the
callback ids returned are strictly increasing in the order of registration,
hence pairwise different: none is returned again, deregistered or not. -/
theorem CallbackIds_strictly_increasing (K : SpatialConstants) (cs : List RegistryCall)
    (h : Registrations cs ≤ UINT32_SIZE) :
    List.Pairwise (· < ·) (CallbackIdsOf (RunRegistryCalls K USpatialDispatcher.Init cs).1) ∧
      (CallbackIdsOf (RunRegistryCalls K USpatialDispatcher.Init cs).1).Nodup := by
  have hlen := CallbackIdsOf_length_le K cs USpatialDispatcher.Init
  have heq := CallbackIdsOf_eq K cs USpatialDispatcher.Init (by decide)
  have hrange : CallbackIdsOf (RunRegistryCalls K USpatialDispatcher.Init cs).1 =
      List.range (CallbackIdsOf (RunRegistryCalls K USpatialDispatcher.Init cs).1).length := by
    conv_lhs => rw [heq]
    conv_rhs => rw [← List.map_id (List.range _)]
    apply List.map_congr_left
    intro i hi
    have hi1 := List.mem_range.mp hi
    simp only [USpatialDispatcher.Init, Nat.zero_add, id]
    exact Nat.mod_eq_of_lt (by omega)
  rw [hrange]
  exact ⟨List.pairwise_lt_range _, List.nodup_range _⟩

/-- C6 (counterexample): in a run of `2 ^ 32 + 1` registrations on a freshly
initialised registry the first and the last registration both return the
callback id `0`: the `uint32` counter has wrapped. -/
theorem CallbackIds_repeat_after_wrap :
    (CallbackIdsOf (RunRegistryCalls SpatialConstants.gdk USpatialDispatcher.Init
        (List.replicate 4294967297 (.OnAddComponent 1 1000 7))).1)[0]? = some 0 ∧
      (CallbackIdsOf (RunRegistryCalls SpatialConstants.gdk USpatialDispatcher.Init
        (List.replicate 4294967297 (.OnAddComponent 1 1000 7))).1)[4294967296]? = some 0 := by
  have heq := CallbackIdsOf_eq SpatialConstants.gdk
    (List.replicate 4294967297 (.OnAddComponent 1 1000 7)) USpatialDispatcher.Init (by decide)
  rw [CallbackIdsOf_replicate_length] at heq
  rw [heq]
  simp only [List.getElem?_map, List.getElem?_range, USpatialDispatcher.Init, Nat.zero_add]
  constructor
  · simp [List.getElem?_range]
  · rw [List.getElem?_range (by norm_num)]
    simp [UINT32_SIZE]

/-- Witness of C6 (amended): two registrations around a deregistration. -/
theorem CallbackIds_strictly_increasing_witness :
    Registrations [.OnAddComponent 1 1000 7, .RemoveOpCallback 0, .OnAddComponent 1 1000 8] ≤
        UINT32_SIZE ∧
      List.Pairwise (· < ·) (CallbackIdsOf (RunRegistryCalls SpatialConstants.gdk
        USpatialDispatcher.Init
        [.OnAddComponent 1 1000 7, .RemoveOpCallback 0, .OnAddComponent 1 1000 8]).1) ∧
      (CallbackIdsOf (RunRegistryCalls SpatialConstants.gdk USpatialDispatcher.Init
        [.OnAddComponent 1 1000 7, .RemoveOpCallback 0, .OnAddComponent 1 1000 8]).1).Nodup :=
  ⟨by decide, CallbackIds_strictly_increasing SpatialConstants.gdk
    [.OnAddComponent 1 1000 7, .RemoveOpCallback 0, .OnAddComponent 1 1000 8] (by decide)⟩

/-! ### Registration and dispatch -/

/-- After `Add`, `Find` on the same key yields the value added. -/
theorem TMap.Find_Add_self {K V : Type} [DecidableEq K] (m : TMap K V) (Key : K) (Value : V) :
    (m.Add Key Value).Find Key = some Value := by
  unfold TMap.Add
  cases h : m.Find Key with
  | none =>
    have h1 : m.Pairs.find? (fun p => decide (p.1 = Key)) = none := by
      simpa [TMap.Find] using h
    simp [TMap.Find, List.find?_append, h1]
  | some v =>
    simp only [TMap.Find] at h ⊢
    obtain ⟨l⟩ := m
    simp only at h ⊢
    induction l with
    | nil => simp at h
    | cons p Rest ih =>
      by_cases hp : p.1 = Key
      · simp [List.find?_cons, hp]
      · simp only [List.find?_cons, hp, decide_False, List.map_cons, if_false] at h ⊢
        exact ih h

/-- A default-constructed map holds no key. -/
theorem TMap.Find_default {K V : Type} [DecidableEq K] (Key : K) :
    (default : TMap K V).Find Key = none := rfl

/-- `RunCallbacks` invokes the callbacks stored under the key
`(EntityId, ComponentId, Op->op_type)`, in the order of the list. -/
theorem RunCallbacks_eq_CallbacksAt (d : USpatialDispatcher) (EntityId : Int) (ComponentId : Nat)
    (Op : Worker_Op) :
    RunCallbacks d EntityId ComponentId Op =
      (d.CallbacksAt EntityId ComponentId Op.op_type).map (fun x => x.Callback.Invoke Op) := by
  unfold RunCallbacks USpatialDispatcher.CallbacksAt
  split
  · rfl
  · split
    · rfl
    · split <;> simp [*]

/-- A registration appends its entry to the list stored under its key. -/
theorem AddGenericOpCallback_CallbacksAt (K : SpatialConstants) (d d1 : USpatialDispatcher)
    (EntityId : Int) (ComponentId : Nat) (OpType : Worker_OpType) (Callback : OpCallback) (Id : Nat)
    (h : AddGenericOpCallback K d EntityId ComponentId OpType Callback = .ok (Id, d1)) :
    d1.CallbacksAt EntityId ComponentId OpType =
      d.CallbacksAt EntityId ComponentId OpType ++ [UserOpCallbackData.mk Id Callback] := by
  unfold AddGenericOpCallback at h
  split at h
  · simp only [Except.ok.injEq, Prod.mk.injEq] at h
    obtain ⟨h1, h2⟩ := h
    subst h1 h2
    simp only [USpatialDispatcher.CallbacksAt, TMap.Find_Add_self, Option.getD_some,
      TMap.FindOrAdd]
    cases h3 : d.EntityIdToComponentIdToOpTypeToCallbacksMap.Find EntityId with
    | none => rfl
    | some m1 =>
      simp only [Option.getD_some]
      cases h4 : m1.Find ComponentId with
      | none => rfl
      | some m2 => rfl
  · simp at h


/-- Narrowing to `uint32` keeps a value of `[0, 2 ^ 32)`. -/
theorem toUInt32_of_range (x : Int) (h0 : 0 ≤ x) (h1 : x < (UINT32_SIZE : Int)) :
    ((toUInt32 x : Nat) : Int) = x := by
  unfold toUInt32
  rw [Int.emod_eq_of_lt h0 h1]
  exact Int.toNat_of_nonneg h0

/-- With both sentinels outside the extension range, the dispatch of an
extension op is: the static-view call of an AuthorityChange op, then
`RunCallbacks` under the entity id narrowed to `uint32`. -/
theorem ProcessExternalSchemaOp_eq (K : SpatialConstants) (d : USpatialDispatcher) (Op : Worker_Op)
    (hc : ¬ (K.MIN_EXTERNAL_SCHEMA_ID ≤ K.INVALID_COMPONENT_ID ∧
      K.INVALID_COMPONENT_ID ≤ K.MAX_EXTERNAL_SCHEMA_ID))
    (he : ¬ ((K.MIN_EXTERNAL_SCHEMA_ID : Int) ≤ K.INVALID_ENTITY_ID ∧
      K.INVALID_ENTITY_ID ≤ (K.MAX_EXTERNAL_SCHEMA_ID : Int)))
    (hOp : IsExternalSchemaOp K Op = true) :
    ProcessExternalSchemaOp K d Op = .ok (ExternalStaticViewCalls Op ++
      RunCallbacks d ((toUInt32 (GetEntityId K Op) : Nat) : Int) (GetComponentId K Op) Op) := by
  have hkind := IsExternalSchemaOp_kind K Op hc hOp
  have h : K.MIN_EXTERNAL_SCHEMA_ID ≤ GetComponentId K Op ∧
      GetComponentId K Op ≤ K.MAX_EXTERNAL_SCHEMA_ID := by
    simpa [IsExternalSchemaOp] using hOp
  have h1 : GetComponentId K Op ≠ K.INVALID_COMPONENT_ID := fun hx => hc (hx ▸ h)
  have h2 : (GetComponentId K Op : Int) ≠ K.INVALID_ENTITY_ID := by
    intro hx
    apply he
    rw [← hx]
    exact ⟨by exact_mod_cast h.1, by exact_mod_cast h.2⟩
  unfold ProcessExternalSchemaOp
  simp only [h1, h2, if_false]
  cases Op <;> simp [Worker_Op.PayloadComponentId] at hkind <;> rfl

/-- For an extension op whose entity id lies in `[0, 2 ^ 32)`, registering a
callback under the op's key adds exactly one call to its dispatch, the
invocation of that callback on the op, after the calls made before. -/
theorem ProcessExternalSchemaOp_after_registration (K : SpatialConstants)
    (d d1 : USpatialDispatcher) (Op : Worker_Op) (Callback : OpCallback) (Id : Nat)
    (hc : ¬ (K.MIN_EXTERNAL_SCHEMA_ID ≤ K.INVALID_COMPONENT_ID ∧
      K.INVALID_COMPONENT_ID ≤ K.MAX_EXTERNAL_SCHEMA_ID))
    (he : ¬ ((K.MIN_EXTERNAL_SCHEMA_ID : Int) ≤ K.INVALID_ENTITY_ID ∧
      K.INVALID_ENTITY_ID ≤ (K.MAX_EXTERNAL_SCHEMA_ID : Int)))
    (hOp : IsExternalSchemaOp K Op = true)
    (h0 : 0 ≤ GetEntityId K Op) (h1 : GetEntityId K Op < (UINT32_SIZE : Int))
    (h : AddGenericOpCallback K d (GetEntityId K Op) (GetComponentId K Op) Op.op_type Callback =
      .ok (Id, d1)) :
    ∃ Before, ProcessExternalSchemaOp K d Op = .ok Before ∧
      ProcessExternalSchemaOp K d1 Op = .ok (Before ++ [Callback.Invoke Op]) := by
  refine ⟨_, ProcessExternalSchemaOp_eq K d Op hc he hOp, ?_⟩
  rw [ProcessExternalSchemaOp_eq K d1 Op hc he hOp, toUInt32_of_range _ h0 h1,
    RunCallbacks_eq_CallbacksAt, RunCallbacks_eq_CallbacksAt,
    AddGenericOpCallback_CallbacksAt K d d1 _ _ _ _ _ h]
  simp

/-! ### Registration, deregistration and dispatch on concrete inputs -/

/-- C1 (failing input): a callback registered with `OnAddComponent` for entity
`2 ^ 32 + 1` and component 1000 is not invoked when `ProcessOps` receives an
AddComponent op for that entity and component: the only call made is
`FlushRetryRPCs`. -/
theorem OnAddComponent_wide_entity_id_not_dispatched :
    ∃ d, OnAddComponent SpatialConstants.gdk USpatialDispatcher.Init 4294967297 1000 7 = .ok (0, d) ∧
      ProcessOps SpatialConstants.gdk d ⟨[]⟩ [.ADD_COMPONENT ⟨4294967297, ⟨1000, 0⟩⟩] =
        .ok [Call.Receiver_FlushRetryRPCs] :=
  ⟨_, rfl, rfl⟩

/-- C2 (failing input): on a fresh registry, `RemoveOpCallback` called with the
callback id that `OnAddComponent` just returned answers `false` and leaves the
registry as it was. -/
theorem RemoveOpCallback_of_registered_id_false :
    ∃ d, OnAddComponent SpatialConstants.gdk USpatialDispatcher.Init 1 1000 7 = .ok (0, d) ∧
      RemoveOpCallback d 0 = (false, d) :=
  ⟨_, rfl, rfl⟩

/-- C3 (failing input): after two callbacks are registered under the key
(1, 1000, AddComponent) and the first is deregistered, the list stored under
the key still holds both. -/
theorem RemoveOpCallback_keeps_callback_list :
    ∃ d, RunRegistryCalls SpatialConstants.gdk USpatialDispatcher.Init
        [.OnAddComponent 1 1000 7, .OnAddComponent 1 1000 8, .RemoveOpCallback 0] =
        ([.CallbackId 0, .CallbackId 1, .Removed false], d) ∧
      d.CallbacksAt 1 1000 WORKER_OP_TYPE_ADD_COMPONENT =
        [⟨0, .OnAddComponent 7⟩, ⟨1, .OnAddComponent 8⟩] :=
  ⟨_, rfl, rfl⟩

/-- C4 (failing input): after the only callback of entity 1 is registered and
then deregistered, it is still stored under its key and the entity still has
its entry in the forward index. -/
theorem RemoveOpCallback_only_callback_stays :
    ∃ d, RunRegistryCalls SpatialConstants.gdk USpatialDispatcher.Init
        [.OnAddComponent 1 1000 7, .RemoveOpCallback 0] =
        ([.CallbackId 0, .Removed false], d) ∧
      d.CallbacksAt 1 1000 WORKER_OP_TYPE_ADD_COMPONENT = [⟨0, .OnAddComponent 7⟩] ∧
      (d.EntityIdToComponentIdToOpTypeToCallbacksMap.Find 1).isSome = true :=
  ⟨_, rfl, rfl, rfl⟩

/-- C5 (failing input): with one callback registered for entity 1 and none for
entity `2 ^ 32 + 1`, an AddComponent op for entity `2 ^ 32 + 1` invokes the
callback of entity 1. -/
theorem ProcessOps_invokes_callback_of_other_entity :
    ∃ d, OnAddComponent SpatialConstants.gdk USpatialDispatcher.Init 1 1000 7 = .ok (0, d) ∧
      d.CallbacksAt 4294967297 1000 WORKER_OP_TYPE_ADD_COMPONENT = [] ∧
      ProcessOps SpatialConstants.gdk d ⟨[]⟩ [.ADD_COMPONENT ⟨4294967297, ⟨1000, 0⟩⟩] =
        .ok [Call.Callback_AddComponent 7 ⟨4294967297, ⟨1000, 0⟩⟩, Call.Receiver_FlushRetryRPCs] :=
  ⟨_, rfl, rfl, rfl⟩

/-! ### Extension-op dispatch -/

/-- Invoking a stored callback is a call of a caller-supplied callback. -/
theorem Invoke_IsUserCallback (Op : Worker_Op) (cb : OpCallback) :
    (cb.Invoke Op).IsUserCallback = true := by
  cases cb <;> rfl

/-- `RunCallbacks` makes no other calls than invocations of caller-supplied
callbacks. -/
theorem RunCallbacks_IsUserCallback (d : USpatialDispatcher) (EntityId : Int)
    (ComponentId : Nat) (Op : Worker_Op) :
    ∀ c ∈ RunCallbacks d EntityId ComponentId Op, c.IsUserCallback = true := by
  rw [RunCallbacks_eq_CallbacksAt]
  intro c hc
  rcases List.mem_map.mp hc with ⟨x, _, hx⟩
  rw [← hx]
  exact Invoke_IsUserCallback Op x.Callback

/-- An invocation of a callback is neither `FlushRetryRPCs` nor
`ProcessOwnershipChange`. -/
theorem IsBatchEnd_of_IsUserCallback (c : Call) (h : c.IsUserCallback = true) :
    c.IsBatchEnd = false := by
  cases c <;> simp_all [Call.IsUserCallback, Call.IsBatchEnd]

/-- The calls made by a dispatch of an extension op that passed its assertions:
the static-view call of an AuthorityChange op, then `RunCallbacks`. -/
theorem ProcessExternalSchemaOp_calls (K : SpatialConstants) (d : USpatialDispatcher)
    (Op : Worker_Op) (Made : List Call) (h : ProcessExternalSchemaOp K d Op = .ok Made) :
    Made = ExternalStaticViewCalls Op ++
      RunCallbacks d ((toUInt32 (GetEntityId K Op) : Nat) : Int) (GetComponentId K Op) Op := by
  unfold ProcessExternalSchemaOp at h
  by_cases h1 : GetComponentId K Op = K.INVALID_COMPONENT_ID
  · simp [h1] at h
  · by_cases h2 : (GetComponentId K Op : Int) = K.INVALID_ENTITY_ID
    · simp [h1, h2] at h
    · simp only [h1, h2, if_false] at h
      cases Op <;> simp at h <;> simp [← h, ExternalStaticViewCalls]

/-- C11: with both sentinels outside the extension range, the iteration of
`ProcessOps` that routes an AuthorityChange op of the extension range succeeds
and appends: first the static view's `OnAuthorityChange` for that op, then the
invocations made by `RunCallbacks`, which are all invocations of registered
callbacks (so the static-view call is made exactly once, before every
callback); for an entity id in `[0, 2 ^ 32)` these are the callbacks stored
under the op's key `(entity, component, AuthorityChange)`, in order. -/
theorem ProcessOpsStep_external_AuthorityChange (K : SpatialConstants) (d : USpatialDispatcher)
    (s : OpsPass) (p : Worker_AuthorityChangeOp)
    (hc : ¬ (K.MIN_EXTERNAL_SCHEMA_ID ≤ K.INVALID_COMPONENT_ID ∧
      K.INVALID_COMPONENT_ID ≤ K.MAX_EXTERNAL_SCHEMA_ID))
    (he : ¬ ((K.MIN_EXTERNAL_SCHEMA_ID : Int) ≤ K.INVALID_ENTITY_ID ∧
      K.INVALID_ENTITY_ID ≤ (K.MAX_EXTERNAL_SCHEMA_ID : Int)))
    (hOp : IsExternalSchemaOp K (.AUTHORITY_CHANGE p) = true) :
    ∃ Invoked,
      ProcessOpsStep K d s (.AUTHORITY_CHANGE p) = .ok (OpsPass.mk
        (s.Calls ++ Call.StaticComponentView_OnAuthorityChange p :: Invoked)
        s.QueuedComponentUpdateOps) ∧
      Invoked = RunCallbacks d ((toUInt32 p.entity_id : Nat) : Int) p.component_id
        (.AUTHORITY_CHANGE p) ∧
      (∀ c ∈ Invoked, c.IsUserCallback = true) ∧
      (0 ≤ p.entity_id → p.entity_id < (UINT32_SIZE : Int) →
        Invoked = (d.CallbacksAt p.entity_id p.component_id WORKER_OP_TYPE_AUTHORITY_CHANGE).map
          (fun x => x.Callback.Invoke (.AUTHORITY_CHANGE p))) := by
  refine ⟨_, ?_, rfl, RunCallbacks_IsUserCallback _ _ _ _, ?_⟩
  · unfold ProcessOpsStep
    rw [hOp, ProcessExternalSchemaOp_eq K d _ hc he hOp]
    rfl
  · intro h0 h1
    rw [toUInt32_of_range _ h0 h1, RunCallbacks_eq_CallbacksAt]
    rfl

/-- C17: provided `INVALID_COMPONENT_ID` lies outside the extension range, for
every op for which `IsExternalSchemaOp` is true, `ProcessExternalSchemaOp`
neither reaches `checkNoEntry` nor fails its check that the component id is
not `INVALID_COMPONENT_ID`, and the op's kind is one of the six kinds the
switch handles. -/
theorem ProcessExternalSchemaOp_no_checkNoEntry (K : SpatialConstants) (d : USpatialDispatcher)
    (Op : Worker_Op)
    (hc : ¬ (K.MIN_EXTERNAL_SCHEMA_ID ≤ K.INVALID_COMPONENT_ID ∧
      K.INVALID_COMPONENT_ID ≤ K.MAX_EXTERNAL_SCHEMA_ID))
    (hOp : IsExternalSchemaOp K Op = true) :
    ProcessExternalSchemaOp K d Op ≠ .error Fatal.checkNoEntry ∧
      ProcessExternalSchemaOp K d Op ≠ .error Fatal.check_ComponentId_not_invalid ∧
      Op.op_type ∈ ComponentOpTypes := by
  have hkind := IsExternalSchemaOp_kind K Op hc hOp
  have h : K.MIN_EXTERNAL_SCHEMA_ID ≤ GetComponentId K Op ∧
      GetComponentId K Op ≤ K.MAX_EXTERNAL_SCHEMA_ID := by
    simpa [IsExternalSchemaOp] using hOp
  have h1 : GetComponentId K Op ≠ K.INVALID_COMPONENT_ID := fun hx => hc (hx ▸ h)
  unfold ProcessExternalSchemaOp
  simp only [h1, if_false]
  cases Op <;> simp [Worker_Op.PayloadComponentId] at hkind <;>
    (refine ⟨?_, ?_, by simp [Worker_Op.op_type, ComponentOpTypes]⟩ <;> split <;> simp)

/-- C20: for every op for which `IsExternalSchemaOp` is true, an iteration of
`ProcessOps` that completes leaves `QueuedComponentUpdateOps` as it was and
appends only the static-view calls of `ExternalStaticViewCalls`, which are
none unless the op is an AuthorityChange, followed by invocations of
registered callbacks: no receiver call, and no static-view call for an
AddComponent or ComponentUpdate op.  With both sentinels outside the extension
range the iteration does complete. -/
theorem ProcessOpsStep_external_frame (K : SpatialConstants) (d : USpatialDispatcher)
    (s : OpsPass) (Op : Worker_Op) (hOp : IsExternalSchemaOp K Op = true) :
    (∀ s1, ProcessOpsStep K d s Op = .ok s1 →
        s1.QueuedComponentUpdateOps = s.QueuedComponentUpdateOps ∧
        ∃ Invoked, s1.Calls = s.Calls ++ ExternalStaticViewCalls Op ++ Invoked ∧
          ∀ c ∈ Invoked, c.IsUserCallback = true) ∧
      ((∀ p, Op ≠ .AUTHORITY_CHANGE p) → ExternalStaticViewCalls Op = []) ∧
      ((¬ (K.MIN_EXTERNAL_SCHEMA_ID ≤ K.INVALID_COMPONENT_ID ∧
          K.INVALID_COMPONENT_ID ≤ K.MAX_EXTERNAL_SCHEMA_ID)) →
        (¬ ((K.MIN_EXTERNAL_SCHEMA_ID : Int) ≤ K.INVALID_ENTITY_ID ∧
          K.INVALID_ENTITY_ID ≤ (K.MAX_EXTERNAL_SCHEMA_ID : Int))) →
        ∃ s1, ProcessOpsStep K d s Op = .ok s1) := by
  refine ⟨?_, ?_, ?_⟩
  · intro s1 h
    unfold ProcessOpsStep at h
    rw [hOp] at h
    simp only [if_true] at h
    cases hx : ProcessExternalSchemaOp K d Op with
    | error e => rw [hx] at h; simp at h
    | ok Made =>
      rw [hx] at h
      simp only [Except.ok.injEq] at h
      subst h
      refine ⟨rfl, RunCallbacks d ((toUInt32 (GetEntityId K Op) : Nat) : Int)
        (GetComponentId K Op) Op, ?_, RunCallbacks_IsUserCallback d _ _ Op⟩
      rw [ProcessExternalSchemaOp_calls K d Op Made hx, List.append_assoc]
  · intro h
    cases Op <;> first
      | rfl
      | exact absurd rfl (h _)
  · intro hc he
    unfold ProcessOpsStep
    rw [hOp, ProcessExternalSchemaOp_eq K d Op hc he hOp]
    exact ⟨_, rfl⟩

/-! ### End of the batch -/

/-- An iteration of the first loop makes neither a `FlushRetryRPCs` nor a
`ProcessOwnershipChange` call. -/
theorem ProcessOpsStep_no_batch_end (K : SpatialConstants) (d : USpatialDispatcher)
    (s s1 : OpsPass) (Op : Worker_Op) (h : ProcessOpsStep K d s Op = .ok s1) :
    ∃ Made, s1.Calls = s.Calls ++ Made ∧ ∀ c ∈ Made, c.IsBatchEnd = false := by
  unfold ProcessOpsStep at h
  cases hx : IsExternalSchemaOp K Op
  · rw [hx] at h
    refine ⟨RoutingTable Op, ?_, ?_⟩
    · cases Op <;> simp at h <;> simp [← h, RoutingTable]
    · cases Op <;> simp [RoutingTable, Call.IsBatchEnd]
  · rw [hx] at h
    simp only [if_true] at h
    cases hy : ProcessExternalSchemaOp K d Op with
    | error e => rw [hy] at h; simp at h
    | ok Made =>
      rw [hy] at h
      simp only [Except.ok.injEq] at h
      subst h
      refine ⟨Made, rfl, ?_⟩
      rw [ProcessExternalSchemaOp_calls K d Op Made hy]
      intro c hc
      rcases List.mem_append.mp hc with h4 | h4
      · cases Op <;> simp [ExternalStaticViewCalls] at h4
        subst h4
        rfl
      · exact IsBatchEnd_of_IsUserCallback c (RunCallbacks_IsUserCallback d _ _ Op c h4)

/-- The first loop makes neither a `FlushRetryRPCs` nor a
`ProcessOwnershipChange` call. -/
theorem ProcessOpsLoop_no_batch_end (K : SpatialConstants) (d : USpatialDispatcher)
    (OpList : List Worker_Op) (s s1 : OpsPass) (h : ProcessOpsLoop K d OpList s = .ok s1) :
    ∃ Made, s1.Calls = s.Calls ++ Made ∧ ∀ c ∈ Made, c.IsBatchEnd = false := by
  induction OpList generalizing s with
  | nil =>
    simp only [ProcessOpsLoop, Except.ok.injEq] at h
    subst h
    exact ⟨[], by simp, by simp⟩
  | cons Op Rest ih =>
    simp only [ProcessOpsLoop] at h
    cases hx : ProcessOpsStep K d s Op with
    | error e => rw [hx] at h; simp at h
    | ok s2 =>
      rw [hx] at h
      obtain ⟨Made1, h1, hno1⟩ := ProcessOpsStep_no_batch_end K d s s2 Op hx
      obtain ⟨Made2, h2, hno2⟩ := ih s2 h
      refine ⟨Made1 ++ Made2, by rw [h2, h1, List.append_assoc], ?_⟩
      intro c hc
      rcases List.mem_append.mp hc with h4 | h4
      · exact hno1 c h4
      · exact hno2 c h4

/-- C18: with both sentinels outside the extension range, `ProcessOps` completes
on every batch, the empty one included, and its trace is the calls of the
first loop and the deferred receiver `OnComponentUpdate` calls, none of which
is a `FlushRetryRPCs` or a `ProcessOwnershipChange`, followed by exactly one
`FlushRetryRPCs` and then one `ProcessOwnershipChange` for each pair of the
net driver's entity-to-channel map. -/
theorem ProcessOps_batch_end (K : SpatialConstants) (d : USpatialDispatcher)
    (EntityToActorChannelMap : TMap Int Nat) (OpList : List Worker_Op)
    (hc : ¬ (K.MIN_EXTERNAL_SCHEMA_ID ≤ K.INVALID_COMPONENT_ID ∧
      K.INVALID_COMPONENT_ID ≤ K.MAX_EXTERNAL_SCHEMA_ID))
    (he : ¬ ((K.MIN_EXTERNAL_SCHEMA_ID : Int) ≤ K.INVALID_ENTITY_ID ∧
      K.INVALID_ENTITY_ID ≤ (K.MAX_EXTERNAL_SCHEMA_ID : Int))) :
    ∃ Routing Queue,
      ProcessOpsLoop K d OpList (OpsPass.mk [] []) = .ok (OpsPass.mk Routing Queue) ∧
      ProcessOps K d EntityToActorChannelMap OpList = .ok ((Routing ++
        (OpList.filterMap (BuiltInComponentUpdate K)).map Call.Receiver_OnComponentUpdate) ++
        ([Call.Receiver_FlushRetryRPCs] ++
          EntityToActorChannelMap.Pairs.map (fun p => Call.ProcessOwnershipChange p.2))) ∧
      (∀ c ∈ Routing ++
          (OpList.filterMap (BuiltInComponentUpdate K)).map Call.Receiver_OnComponentUpdate,
        c.IsBatchEnd = false) := by
  obtain ⟨Made, h, _, _⟩ := ProcessOpsLoop_ok K d hc he OpList (OpsPass.mk [] [])
  simp only [List.nil_append] at h
  obtain ⟨Made2, h2, hno⟩ := ProcessOpsLoop_no_batch_end K d OpList _ _ h
  simp only [List.nil_append] at h2
  subst h2
  refine ⟨Made, _, h, ?_, ?_⟩
  · simp only [ProcessOps, h, ProcessQueuedComponentUpdateOps_eq, ProcessOwnershipChanges_eq,
      queued_component_updates]
    simp
  · intro c hc
    rcases List.mem_append.mp hc with h4 | h4
    · exact hno c h4
    · rcases List.mem_map.mp h4 with ⟨x, _, hx⟩
      rw [← hx]
      rfl

/-! ### Registry: assertions, unknown handles, shape of the forward index -/

/-- A pair found by `Find` is stored in the map. -/
theorem TMap.Find_mem {K V : Type} [DecidableEq K] (m : TMap K V) (Key : K) (Value : V)
    (h : m.Find Key = some Value) : (Key, Value) ∈ m.Pairs := by
  simp only [TMap.Find, Option.map_eq_some'] at h
  obtain ⟨p, hp, hv⟩ := h
  have h1 := List.find?_some hp
  have h2 := List.mem_of_find?_eq_some hp
  simp only [decide_eq_true_eq] at h1
  obtain ⟨a, b⟩ := p
  simp only at h1 hv
  subst h1 hv
  exact h2

/-- A key `Find` does not find is no key of the map. -/
theorem TMap.Find_none {K V : Type} [DecidableEq K] (m : TMap K V) (Key : K)
    (h : m.Find Key = none) : Key ∉ m.Keys := by
  simp only [TMap.Find, Option.map_eq_none', List.find?_eq_none, decide_eq_true_eq] at h
  simp only [TMap.Keys, List.mem_map, not_exists, not_and]
  intro p hp hk
  exact h p hp hk

/-- A default-constructed map is in order. -/
theorem TMap.Inv_default {K V : Type} (P : V → Prop) : TMap.Inv P (default : TMap K V) :=
  ⟨List.nodup_nil, fun _ hp => absurd hp (List.not_mem_nil _)⟩

/-- A map is not empty after `Add`. -/
theorem TMap.Add_ne_nil {K V : Type} [DecidableEq K] (m : TMap K V) (Key : K) (Value : V) :
    (m.Add Key Value).Pairs ≠ [] := by
  unfold TMap.Add
  cases h : m.Find Key with
  | none => simp
  | some v =>
    have hmem := TMap.Find_mem m Key v h
    intro hnil
    have hlen := congrArg List.length hnil
    simp only [List.length_map, List.length_nil] at hlen
    have := List.length_pos_of_mem hmem
    omega

/-- `Add` keeps a map in order when the value added is. -/
theorem TMap.Inv_Add {K V : Type} [DecidableEq K] (P : V → Prop) (m : TMap K V) (Key : K)
    (Value : V) (hm : TMap.Inv P m) (hv : P Value) : TMap.Inv P (m.Add Key Value) := by
  unfold TMap.Add
  cases h : m.Find Key with
  | none =>
    refine ⟨?_, ?_⟩
    · have hk := TMap.Find_none m Key h
      simp only [TMap.Keys, List.map_append, List.map_cons, List.map_nil]
      refine List.Nodup.append hm.1 (List.nodup_singleton _) ?_
      intro a ha hb
      simp only [List.mem_singleton] at hb
      subst hb
      exact hk ha
    · intro p hp
      rcases List.mem_append.mp hp with h1 | h1
      · exact hm.2 p h1
      · simp only [List.mem_singleton] at h1
        subst h1
        exact hv
  | some v =>
    refine ⟨?_, ?_⟩
    · have hkeys : (List.map (fun p : K × V => if p.1 = Key then (Key, Value) else p)
          m.Pairs).map Prod.fst = m.Pairs.map Prod.fst := by
        rw [List.map_map]
        apply List.map_congr_left
        intro p _
        by_cases hp : p.1 = Key <;> simp [hp]
      simp only [TMap.Keys, hkeys]
      exact hm.1
    · intro p hp
      simp only [List.mem_map] at hp
      obtain ⟨q, hq, hqp⟩ := hp
      by_cases hk : q.1 = Key
      · simp only [hk, if_true] at hqp
        subst hqp
        exact hv
      · simp only [hk, if_false] at hqp
        subst hqp
        exact hm.2 q hq

/-- `Remove` keeps a map in order. -/
theorem TMap.Inv_Remove {K V : Type} [DecidableEq K] (P : V → Prop) (m : TMap K V) (Key : K)
    (hm : TMap.Inv P m) : TMap.Inv P (m.Remove Key) := by
  refine ⟨?_, ?_⟩
  · simp only [TMap.Keys, TMap.Remove]
    exact List.Nodup.sublist (List.Sublist.map _ (List.filter_sublist _)) hm.1
  · intro p hp
    exact hm.2 p (List.mem_of_mem_filter hp)

/-- In a map in order, a value found is in order. -/
theorem TMap.Inv_Find {K V : Type} [DecidableEq K] (P : V → Prop) (m : TMap K V) (Key : K)
    (Value : V) (hm : TMap.Inv P m) (h : m.Find Key = some Value) : P Value :=
  hm.2 _ (TMap.Find_mem m Key Value h)

/-- Removing a key from a map with pairwise different keys and a number of
pairs other than one leaves pairs behind. -/
theorem TMap.Remove_ne_nil {K V : Type} [DecidableEq K] (m : TMap K V) (Key : K)
    (hk : m.Keys.Nodup) (hne : m.Pairs ≠ []) (hnum : m.Num ≠ 1) : (m.Remove Key).Pairs ≠ [] := by
  obtain ⟨l⟩ := m
  simp only [TMap.Keys, TMap.Num, TMap.Remove] at *
  match l, hne, hnum, hk with
  | [a], _, hnum, _ => simp at hnum
  | a :: b :: Rest, _, _, hk =>
    simp only [List.map_cons, List.nodup_cons, List.mem_cons, not_or] at hk
    have hab : a.1 ≠ b.1 := hk.1.1
    by_cases ha : a.1 = Key
    · have hb : b.1 ≠ Key := fun hb => hab (ha.trans hb.symm)
      intro hnil
      have : b ∈ List.filter (fun p => !decide (p.1 = Key)) (a :: b :: Rest) := by
        simp [List.mem_filter, hb]
      rw [hnil] at this
      simp at this
    · intro hnil
      have : a ∈ List.filter (fun p => !decide (p.1 = Key)) (a :: b :: Rest) := by
        simp [List.mem_filter, ha]
      rw [hnil] at this
      simp at this

/-- An index returned by `IndexOfByPredicate` is in bounds, and some element
satisfies the predicate. -/
theorem IndexOfByPredicate_some {A : Type} (Pred : A → Bool) (l : List A) (i : Nat)
    (h : IndexOfByPredicate Pred l = some i) : i < l.length ∧ ∃ x ∈ l, Pred x = true := by
  induction l generalizing i with
  | nil => simp [IndexOfByPredicate] at h
  | cons a Rest ih =>
    simp only [IndexOfByPredicate] at h
    split at h
    · simp only [Option.some.injEq] at h
      subst h
      exact ⟨by simp, a, by simp, by assumption⟩
    · simp only [Option.map_eq_some'] at h
      obtain ⟨j, hj, hi⟩ := h
      obtain ⟨h1, x, hx, hp⟩ := ih j hj
      subst hi
      exact ⟨by simp [h1], x, List.mem_cons_of_mem _ hx, hp⟩

/-- An entry of a list reached by the three lookups is stored in the forward
index. -/
theorem mem_AllCallbacks (d : USpatialDispatcher) (e : Int) (c : Nat) (t : Worker_OpType)
    (m1 : ComponentIdToOpTypeToCallbacksMap) (m2 : OpTypeToCallbacksMap)
    (l : List UserOpCallbackData) (x : UserOpCallbackData)
    (h1 : d.EntityIdToComponentIdToOpTypeToCallbacksMap.Find e = some m1)
    (h2 : m1.Find c = some m2) (h3 : m2.Find t = some l) (hx : x ∈ l) :
    x ∈ d.AllCallbacks := by
  simp only [USpatialDispatcher.AllCallbacks, List.mem_flatten, List.mem_map]
  refine ⟨_, ⟨(e, m1), TMap.Find_mem _ _ _ h1, rfl⟩, ?_⟩
  simp only [List.mem_flatten, List.mem_map]
  refine ⟨_, ⟨(c, m2), TMap.Find_mem _ _ _ h2, rfl⟩, ?_⟩
  simp only [List.mem_flatten, List.mem_map]
  exact ⟨_, ⟨(t, l), TMap.Find_mem _ _ _ h3, rfl⟩, hx⟩

/-- C12: for every registry state and every handle that is not currently
registered (the reverse index has no entry for it, or no callback stored in
the forward index carries it), `RemoveOpCallback` returns false and leaves the
registry (forward index, reverse index, counter) as it was. -/
theorem RemoveOpCallback_unregistered (d : USpatialDispatcher) (CallbackId : Nat)
    (h : d.CallbackIdToDataMap.Find CallbackId = none ∨
      ∀ x ∈ d.AllCallbacks, x.Id ≠ CallbackId) :
    RemoveOpCallback d CallbackId = (false, d) := by
  unfold RemoveOpCallback
  split
  · rfl
  · rename_i CallbackData hdata
    split
    · rfl
    · rename_i m1 h1
      split
      · rfl
      · rename_i m2 h2
        split
        · rfl
        · rename_i l h3
          split
          · rfl
          · rename_i i hi
            exfalso
            rcases h with h | h
            · rw [h] at hdata
              simp at hdata
            · obtain ⟨_, x, hx, hp⟩ := IndexOfByPredicate_some _ _ _ hi
              exact h x (mem_AllCallbacks d _ _ _ m1 m2 l x h1 h2 h3 hx) (by simpa using hp)

/-- C13: `AddGenericOpCallback` fails if and only if the component id lies
outside `[MIN_EXTERNAL_SCHEMA_ID, MAX_EXTERNAL_SCHEMA_ID]`, and then on its
range `check`; inside the range it succeeds and returns the handle
`NextCallbackId`.  The same holds for each of the six `On...` registrations:
outside the range the call is fatal, the run ends with no handle returned and
the registry as it was; inside the range it returns a handle. -/
theorem AddGenericOpCallback_check (K : SpatialConstants) (d : USpatialDispatcher) (EntityId : Int)
    (ComponentId : Nat) (OpType : Worker_OpType) (Callback : OpCallback) :
    ((∃ f, AddGenericOpCallback K d EntityId ComponentId OpType Callback = .error f) ↔
        ¬ (K.MIN_EXTERNAL_SCHEMA_ID ≤ ComponentId ∧ ComponentId ≤ K.MAX_EXTERNAL_SCHEMA_ID)) ∧
      (¬ (K.MIN_EXTERNAL_SCHEMA_ID ≤ ComponentId ∧ ComponentId ≤ K.MAX_EXTERNAL_SCHEMA_ID) →
        AddGenericOpCallback K d EntityId ComponentId OpType Callback =
          .error Fatal.check_ComponentId_external) ∧
      (K.MIN_EXTERNAL_SCHEMA_ID ≤ ComponentId ∧ ComponentId ≤ K.MAX_EXTERNAL_SCHEMA_ID →
        ∃ d1, AddGenericOpCallback K d EntityId ComponentId OpType Callback =
          .ok (d.NextCallbackId, d1)) ∧
      (∀ (rc : RegistryCall) (Rest : List RegistryCall), rc.ComponentId = some ComponentId →
        ¬ (K.MIN_EXTERNAL_SCHEMA_ID ≤ ComponentId ∧ ComponentId ≤ K.MAX_EXTERNAL_SCHEMA_ID) →
        RunRegistryCalls K d (rc :: Rest) = ([], d)) ∧
      (∀ rc : RegistryCall, rc.ComponentId = some ComponentId →
        K.MIN_EXTERNAL_SCHEMA_ID ≤ ComponentId ∧ ComponentId ≤ K.MAX_EXTERNAL_SCHEMA_ID →
        ∃ d1, RunRegistryCall K d rc = .ok (.CallbackId d.NextCallbackId, d1)) := by
  refine ⟨?_, ?_, ?_, ?_, ?_⟩
  · unfold AddGenericOpCallback
    split <;> simp [*]
  · intro h
    simp [AddGenericOpCallback, h]
  · intro h
    simp [AddGenericOpCallback, h]
  · intro rc Rest hrc h
    cases rc <;> simp [RegistryCall.ComponentId] at hrc <;> subst hrc <;>
      simp [RunRegistryCalls, RunRegistryCall, OnAddComponent, OnRemoveComponent,
        OnAuthorityChange, OnComponentUpdate, OnCommandRequest, OnCommandResponse,
        AddGenericOpCallback, h, Except.map]
  · intro rc hrc h
    cases rc <;> simp [RegistryCall.ComponentId] at hrc <;> subst hrc <;>
      simp [RunRegistryCall, OnAddComponent, OnRemoveComponent,
        OnAuthorityChange, OnComponentUpdate, OnCommandRequest, OnCommandResponse,
        AddGenericOpCallback, h, Except.map]

/-- The forward index of a fresh registry is in order. -/
theorem Init_ForwardOk : USpatialDispatcher.Init.ForwardOk :=
  ⟨List.nodup_nil, fun _ hp => absurd hp (List.not_mem_nil _)⟩

/-- A registration keeps the forward index in order. -/
theorem AddGenericOpCallback_ForwardOk (K : SpatialConstants) (d d1 : USpatialDispatcher)
    (EntityId : Int) (ComponentId : Nat) (OpType : Worker_OpType) (Callback : OpCallback) (Id : Nat)
    (hd : d.ForwardOk)
    (h : AddGenericOpCallback K d EntityId ComponentId OpType Callback = .ok (Id, d1)) :
    d1.ForwardOk := by
  unfold AddGenericOpCallback at h
  split at h
  · simp only [Except.ok.injEq, Prod.mk.injEq] at h
    obtain ⟨_, h2⟩ := h
    subst h2
    have h1 : TMap.Inv OpTypeNodeOk
        (d.EntityIdToComponentIdToOpTypeToCallbacksMap.FindOrAdd EntityId) := by
      unfold TMap.FindOrAdd
      cases hx : d.EntityIdToComponentIdToOpTypeToCallbacksMap.Find EntityId with
      | none => exact TMap.Inv_default _
      | some m1 => exact (TMap.Inv_Find _ _ _ _ hd hx).2
    have h2 : TMap.Inv (fun l : List UserOpCallbackData => l ≠ [])
        ((d.EntityIdToComponentIdToOpTypeToCallbacksMap.FindOrAdd EntityId).FindOrAdd
          ComponentId) := by
      generalize d.EntityIdToComponentIdToOpTypeToCallbacksMap.FindOrAdd EntityId = m1 at h1 ⊢
      unfold TMap.FindOrAdd
      cases hx : m1.Find ComponentId with
      | none => exact TMap.Inv_default _
      | some m2 => exact (TMap.Inv_Find _ _ _ _ h1 hx).2
    exact TMap.Inv_Add _ _ _ _ hd
      ⟨TMap.Add_ne_nil _ _ _, TMap.Inv_Add _ _ _ _ h1
        ⟨TMap.Add_ne_nil _ _ _, TMap.Inv_Add _ _ _ _ h2 (by simp)⟩⟩
  · simp at h

/-- `RemoveOpCallback` keeps the forward index in order: each of its four
removals prunes the levels it empties. -/
theorem RemoveOpCallback_ForwardOk (d : USpatialDispatcher) (CallbackId : Nat)
    (hd : d.ForwardOk) : (RemoveOpCallback d CallbackId).2.ForwardOk := by
  unfold RemoveOpCallback
  split
  · exact hd
  · split
    · exact hd
    · rename_i m1 h1
      have hm1 : ComponentNodeOk m1 := TMap.Inv_Find _ _ _ _ hd h1
      split
      · exact hd
      · rename_i m2 h2
        have hm2 : OpTypeNodeOk m2 := TMap.Inv_Find _ _ _ _ hm1.2 h2
        split
        · exact hd
        · rename_i l h3
          split
          · exact hd
          · rename_i i hi
            have hil := (IndexOfByPredicate_some _ _ _ hi).1
            split
            · split
              · split
                · exact TMap.Inv_Remove _ _ _ hd
                · rename_i hnum
                  exact TMap.Inv_Add _ _ _ _ hd
                    ⟨TMap.Remove_ne_nil _ _ hm1.2.1 hm1.1 hnum, TMap.Inv_Remove _ _ _ hm1.2⟩
              · rename_i hnum
                exact TMap.Inv_Add _ _ _ _ hd
                  ⟨TMap.Add_ne_nil _ _ _, TMap.Inv_Add _ _ _ _ hm1.2
                    ⟨TMap.Remove_ne_nil _ _ hm2.2.1 hm2.1 hnum, TMap.Inv_Remove _ _ _ hm2.2⟩⟩
            · rename_i hlen
              refine TMap.Inv_Add _ _ _ _ hd
                ⟨TMap.Add_ne_nil _ _ _, TMap.Inv_Add _ _ _ _ hm1.2
                  ⟨TMap.Add_ne_nil _ _ _, TMap.Inv_Add _ _ _ _ hm2.2 ?_⟩⟩
              intro hnil
              have := congrArg List.length hnil
              rw [List.length_eraseIdx] at this
              simp only [hil, if_true, List.length_nil] at this
              omega

/-- A registry call keeps the forward index in order. -/
theorem RunRegistryCall_ForwardOk (K : SpatialConstants) (d d1 : USpatialDispatcher)
    (c : RegistryCall) (r : RegistryReturn) (hd : d.ForwardOk)
    (h : RunRegistryCall K d c = .ok (r, d1)) : d1.ForwardOk := by
  cases c with
  | RemoveOpCallback Id =>
    simp only [RunRegistryCall, Except.ok.injEq, Prod.mk.injEq] at h
    rw [← h.2]
    exact RemoveOpCallback_ForwardOk d Id hd
  | _ =>
    simp only [RunRegistryCall, OnAddComponent, OnRemoveComponent, OnAuthorityChange,
      OnComponentUpdate, OnCommandRequest, OnCommandResponse] at h
    cases hx : AddGenericOpCallback K d _ _ _ _ with
    | error e => rw [hx] at h; simp [Except.map] at h
    | ok v =>
      rw [hx] at h
      simp only [Except.map, Except.ok.injEq, Prod.mk.injEq] at h
      rw [← h.2]
      exact AddGenericOpCallback_ForwardOk K d v.2 _ _ _ _ v.1 hd hx

/-- A run of registry calls keeps the forward index in order. -/
theorem RunRegistryCalls_ForwardOk (K : SpatialConstants) (cs : List RegistryCall)
    (d : USpatialDispatcher) (hd : d.ForwardOk) : (RunRegistryCalls K d cs).2.ForwardOk := by
  induction cs generalizing d with
  | nil => exact hd
  | cons c Rest ih =>
    simp only [RunRegistryCalls]
    cases hx : RunRegistryCall K d c with
    | error e => exact hd
    | ok v =>
      obtain ⟨r, d1⟩ := v
      exact ih d1 (RunRegistryCall_ForwardOk K d d1 c r hd hx)

/-- A forward index in order has no empty node. -/
theorem ForwardOk_NoEmptyNode (d : USpatialDispatcher) (hd : d.ForwardOk) : d.NoEmptyNode := by
  intro p hp
  have h1 : ComponentNodeOk p.2 := hd.2 p hp
  refine ⟨h1.1, fun q hq => ?_⟩
  have h2 : OpTypeNodeOk q.2 := h1.2.2 q hq
  exact ⟨h2.1, fun r hr => h2.2.2 r hr⟩

/-- Without empty nodes, a key is present exactly when its callback list is
not empty. -/
theorem NoEmptyNode_KeyPresent (d : USpatialDispatcher) (hd : d.NoEmptyNode) (EntityId : Int)
    (ComponentId : Nat) (OpType : Worker_OpType) :
    d.KeyPresent EntityId ComponentId OpType = true ↔
      d.CallbacksAt EntityId ComponentId OpType ≠ [] := by
  unfold USpatialDispatcher.KeyPresent USpatialDispatcher.CallbacksAt
  cases h1 : d.EntityIdToComponentIdToOpTypeToCallbacksMap.Find EntityId with
  | none => simp
  | some m1 =>
    cases h2 : m1.Find ComponentId with
    | none => simp [h2]
    | some m2 =>
      cases h3 : m2.Find OpType with
      | none => simp [h2, h3]
      | some l =>
        have := ((hd _ (TMap.Find_mem _ _ _ h1)).2 _ (TMap.Find_mem _ _ _ h2)).2 _
          (TMap.Find_mem _ _ _ h3)
        simpa [h2, h3] using this

/-- C15: in every registry state reached from the fresh registry by a sequence
of register and deregister calls, the forward index has no empty node (no
entity entry with an empty component map, no component entry with an empty
kind map, no kind entry with an empty callback list), and a key
`(entity, component, kind)` is present if and only if at least one callback is
stored under it. -/
theorem reachable_NoEmptyNode (K : SpatialConstants) (cs : List RegistryCall) :
    (RunRegistryCalls K USpatialDispatcher.Init cs).2.NoEmptyNode ∧
      ∀ (EntityId : Int) (ComponentId : Nat) (OpType : Worker_OpType),
        (RunRegistryCalls K USpatialDispatcher.Init cs).2.KeyPresent EntityId ComponentId OpType
            = true ↔
          (RunRegistryCalls K USpatialDispatcher.Init cs).2.CallbacksAt EntityId ComponentId OpType
            ≠ [] := by
  have h := ForwardOk_NoEmptyNode _ (RunRegistryCalls_ForwardOk K cs _ Init_ForwardOk)
  exact ⟨h, NoEmptyNode_KeyPresent _ h⟩

/-! ### Instances on concrete inputs -/

/-- Witness of C11: an AuthorityChange op for entity 1 and component 1000, with
one callback registered under its key. -/
theorem ProcessOpsStep_external_AuthorityChange_witness :
    (¬ (SpatialConstants.gdk.MIN_EXTERNAL_SCHEMA_ID ≤ SpatialConstants.gdk.INVALID_COMPONENT_ID ∧
      SpatialConstants.gdk.INVALID_COMPONENT_ID ≤ SpatialConstants.gdk.MAX_EXTERNAL_SCHEMA_ID)) ∧
    (¬ ((SpatialConstants.gdk.MIN_EXTERNAL_SCHEMA_ID : Int) ≤ SpatialConstants.gdk.INVALID_ENTITY_ID ∧
      SpatialConstants.gdk.INVALID_ENTITY_ID ≤ (SpatialConstants.gdk.MAX_EXTERNAL_SCHEMA_ID : Int))) ∧
    IsExternalSchemaOp SpatialConstants.gdk (.AUTHORITY_CHANGE ⟨1, 1000, 1⟩) = true ∧
    ∃ Invoked,
      ProcessOpsStep SpatialConstants.gdk
          (RunRegistryCalls SpatialConstants.gdk USpatialDispatcher.Init
            [.OnAuthorityChange 1 1000 7]).2 (OpsPass.mk [] [])
          (.AUTHORITY_CHANGE ⟨1, 1000, 1⟩) = .ok (OpsPass.mk
        ((OpsPass.mk [] []).Calls ++
          Call.StaticComponentView_OnAuthorityChange ⟨1, 1000, 1⟩ :: Invoked)
        (OpsPass.mk [] []).QueuedComponentUpdateOps) ∧
      Invoked = RunCallbacks (RunRegistryCalls SpatialConstants.gdk USpatialDispatcher.Init
            [.OnAuthorityChange 1 1000 7]).2
          ((toUInt32 (Worker_AuthorityChangeOp.mk 1 1000 1).entity_id : Nat) : Int)
          (Worker_AuthorityChangeOp.mk 1 1000 1).component_id (.AUTHORITY_CHANGE ⟨1, 1000, 1⟩) ∧
      (∀ c ∈ Invoked, c.IsUserCallback = true) ∧
      (0 ≤ (Worker_AuthorityChangeOp.mk 1 1000 1).entity_id →
        (Worker_AuthorityChangeOp.mk 1 1000 1).entity_id < (UINT32_SIZE : Int) →
        Invoked = ((RunRegistryCalls SpatialConstants.gdk USpatialDispatcher.Init
            [.OnAuthorityChange 1 1000 7]).2.CallbacksAt
            (Worker_AuthorityChangeOp.mk 1 1000 1).entity_id
            (Worker_AuthorityChangeOp.mk 1 1000 1).component_id
            WORKER_OP_TYPE_AUTHORITY_CHANGE).map
          (fun x => x.Callback.Invoke (.AUTHORITY_CHANGE ⟨1, 1000, 1⟩))) :=
  ⟨by decide, by decide, by decide,
    ProcessOpsStep_external_AuthorityChange SpatialConstants.gdk
      (RunRegistryCalls SpatialConstants.gdk USpatialDispatcher.Init
        [.OnAuthorityChange 1 1000 7]).2 (OpsPass.mk [] []) ⟨1, 1000, 1⟩
      (by decide) (by decide) (by decide)⟩

/-- Witness of C12: handle 5 was never issued by a registry that holds one
registration. -/
theorem RemoveOpCallback_unregistered_witness :
    ((RunRegistryCalls SpatialConstants.gdk USpatialDispatcher.Init
          [.OnAddComponent 1 1000 7]).2.CallbackIdToDataMap.Find 5 = none ∨
        ∀ x ∈ (RunRegistryCalls SpatialConstants.gdk USpatialDispatcher.Init
          [.OnAddComponent 1 1000 7]).2.AllCallbacks, x.Id ≠ 5) ∧
      RemoveOpCallback (RunRegistryCalls SpatialConstants.gdk USpatialDispatcher.Init
          [.OnAddComponent 1 1000 7]).2 5 =
        (false, (RunRegistryCalls SpatialConstants.gdk USpatialDispatcher.Init
          [.OnAddComponent 1 1000 7]).2) :=
  ⟨Or.inl rfl, RemoveOpCallback_unregistered _ 5 (Or.inl rfl)⟩

/-- Witness of C13: component 999 lies below the range of the header, and the
registration fails on its range check. -/
theorem AddGenericOpCallback_check_witness :
    (¬ (SpatialConstants.gdk.MIN_EXTERNAL_SCHEMA_ID ≤ 999 ∧
        999 ≤ SpatialConstants.gdk.MAX_EXTERNAL_SCHEMA_ID)) ∧
      AddGenericOpCallback SpatialConstants.gdk USpatialDispatcher.Init 1 999
          WORKER_OP_TYPE_ADD_COMPONENT (.OnAddComponent 7) =
        .error Fatal.check_ComponentId_external :=
  ⟨by decide,
    (AddGenericOpCallback_check SpatialConstants.gdk USpatialDispatcher.Init 1 999
      WORKER_OP_TYPE_ADD_COMPONENT (.OnAddComponent 7)).2.1 (by decide)⟩

/-- Witness of C17: a CommandRequest op for component 2000. -/
theorem ProcessExternalSchemaOp_no_checkNoEntry_witness :
    (¬ (SpatialConstants.gdk.MIN_EXTERNAL_SCHEMA_ID ≤ SpatialConstants.gdk.INVALID_COMPONENT_ID ∧
      SpatialConstants.gdk.INVALID_COMPONENT_ID ≤ SpatialConstants.gdk.MAX_EXTERNAL_SCHEMA_ID)) ∧
    IsExternalSchemaOp SpatialConstants.gdk (.COMMAND_REQUEST ⟨4, 1, ⟨2000, 0⟩⟩) = true ∧
    ProcessExternalSchemaOp SpatialConstants.gdk USpatialDispatcher.Init
        (.COMMAND_REQUEST ⟨4, 1, ⟨2000, 0⟩⟩) ≠ .error Fatal.checkNoEntry ∧
      ProcessExternalSchemaOp SpatialConstants.gdk USpatialDispatcher.Init
        (.COMMAND_REQUEST ⟨4, 1, ⟨2000, 0⟩⟩) ≠ .error Fatal.check_ComponentId_not_invalid ∧
      (Worker_Op.COMMAND_REQUEST ⟨4, 1, ⟨2000, 0⟩⟩).op_type ∈ ComponentOpTypes :=
  ⟨by decide, by decide,
    ProcessExternalSchemaOp_no_checkNoEntry SpatialConstants.gdk USpatialDispatcher.Init
      (.COMMAND_REQUEST ⟨4, 1, ⟨2000, 0⟩⟩) (by decide) (by decide)⟩

/-- Witness of C18: the empty batch, with one live channel. -/
theorem ProcessOps_batch_end_witness :
    (¬ (SpatialConstants.gdk.MIN_EXTERNAL_SCHEMA_ID ≤ SpatialConstants.gdk.INVALID_COMPONENT_ID ∧
      SpatialConstants.gdk.INVALID_COMPONENT_ID ≤ SpatialConstants.gdk.MAX_EXTERNAL_SCHEMA_ID)) ∧
    (¬ ((SpatialConstants.gdk.MIN_EXTERNAL_SCHEMA_ID : Int) ≤ SpatialConstants.gdk.INVALID_ENTITY_ID ∧
      SpatialConstants.gdk.INVALID_ENTITY_ID ≤ (SpatialConstants.gdk.MAX_EXTERNAL_SCHEMA_ID : Int))) ∧
    ∃ Routing Queue,
      ProcessOpsLoop SpatialConstants.gdk USpatialDispatcher.Init [] (OpsPass.mk [] []) =
        .ok (OpsPass.mk Routing Queue) ∧
      ProcessOps SpatialConstants.gdk USpatialDispatcher.Init ⟨[(1, 3)]⟩ [] = .ok ((Routing ++
        (([] : List Worker_Op).filterMap (BuiltInComponentUpdate SpatialConstants.gdk)).map
          Call.Receiver_OnComponentUpdate) ++
        ([Call.Receiver_FlushRetryRPCs] ++
          (TMap.mk [((1 : Int), 3)]).Pairs.map (fun p => Call.ProcessOwnershipChange p.2))) ∧
      (∀ c ∈ Routing ++
          (([] : List Worker_Op).filterMap (BuiltInComponentUpdate SpatialConstants.gdk)).map
            Call.Receiver_OnComponentUpdate,
        c.IsBatchEnd = false) :=
  ⟨by decide, by decide,
    ProcessOps_batch_end SpatialConstants.gdk USpatialDispatcher.Init ⟨[(1, 3)]⟩ []
      (by decide) (by decide)⟩

/-- Witness of C20: an AddComponent op for component 1000. -/
theorem ProcessOpsStep_external_frame_witness :
    IsExternalSchemaOp SpatialConstants.gdk (.ADD_COMPONENT ⟨1, ⟨1000, 0⟩⟩) = true ∧
    ∃ s1, ProcessOpsStep SpatialConstants.gdk USpatialDispatcher.Init (OpsPass.mk [] [])
      (.ADD_COMPONENT ⟨1, ⟨1000, 0⟩⟩) = .ok s1 :=
  ⟨by decide,
    (ProcessOpsStep_external_frame SpatialConstants.gdk USpatialDispatcher.Init (OpsPass.mk [] [])
      (.ADD_COMPONENT ⟨1, ⟨1000, 0⟩⟩) (by decide)).2.2 (by decide) (by decide)⟩

/-- `RemoveOpCallback` never changes the reverse index `CallbackIdToDataMap`. -/
theorem RemoveOpCallback_CallbackIdToDataMap (d : USpatialDispatcher) (Id : Nat) :
    (RemoveOpCallback d Id).2.CallbackIdToDataMap = d.CallbackIdToDataMap := by
  unfold RemoveOpCallback
  repeat' split
  all_goals rfl

/-- C14 (failing input): an AddComponent op of the extension range whose
entity id is the sentinel `INVALID_ENTITY_ID` passes both assertions of
`ProcessExternalSchemaOp`, and the callback registered for entity 0 is
invoked. -/
theorem ProcessExternalSchemaOp_invalid_entity_id_passes :
    ∃ d, OnAddComponent SpatialConstants.gdk USpatialDispatcher.Init 0 1000 7 = .ok (0, d) ∧
      IsExternalSchemaOp SpatialConstants.gdk (.ADD_COMPONENT ⟨0, ⟨1000, 0⟩⟩) = true ∧
      GetEntityId SpatialConstants.gdk (.ADD_COMPONENT ⟨0, ⟨1000, 0⟩⟩) =
        SpatialConstants.gdk.INVALID_ENTITY_ID ∧
      ProcessExternalSchemaOp SpatialConstants.gdk d (.ADD_COMPONENT ⟨0, ⟨1000, 0⟩⟩) =
        .ok [Call.Callback_AddComponent 7 ⟨0, ⟨1000, 0⟩⟩] :=
  ⟨_, rfl, rfl, rfl, rfl⟩

/-- C16 (failing input): after `OnAddComponent` for entity 1 and component 1000
on a fresh registry, the forward index holds callback id 0 under
(1, 1000, AddComponent), but the reverse index maps 0 to entity 1000,
component `WORKER_OP_TYPE_ADD_COMPONENT`, op type 0, a key under which the
forward index holds nothing. -/
theorem CallbackIdToDataMap_disagrees_with_forward_index :
    ∃ d, OnAddComponent SpatialConstants.gdk USpatialDispatcher.Init 1 1000 7 = .ok (0, d) ∧
      d.CallbacksAt 1 1000 WORKER_OP_TYPE_ADD_COMPONENT = [⟨0, .OnAddComponent 7⟩] ∧
      d.CallbackIdToDataMap.Find 0 =
        some (CallbackIdData.mk 1000 WORKER_OP_TYPE_ADD_COMPONENT 0) ∧
      d.CallbacksAt 1000 WORKER_OP_TYPE_ADD_COMPONENT 0 = [] :=
  ⟨_, rfl, rfl, rfl, rfl⟩

end SpatialGDK
